import Mathlib

/-!
# Rupix scene/canvas management core — formal model

A shallow embedding of the scene/canvas management core of the Rupix
design editor (`src/lib/core/DesignManager.ts` and the canvas-tool router
in `src/lib/hooks/useActiveDesign.ts`), together with theorems settling
the specification claims about it.

Modelling conventions:

* Fabric.js objects live on a JS heap and are shared by reference between
  the canvas paint-order list, the layer registry, the `baseLayer` field,
  the active-selection slot and the drawing-preview slot.  The model keeps
  a heap `List (Nat × ScnObj)` keyed by an object identity `Nat` allocated
  from a counter, and every reference is such a key.
* `uuidv4()` layer ids are modelled by a fresh counter `nextUuid`; the
  only property the code relies on is freshness.
* Numbers are `ℚ`; colors and type discriminators are `String`.
* `canvas.toJSON()` serialization and `fabric.Object.clone()` are
  modelled as preserving every object field, including the custom
  `layerId` and `name` tags.  (This is generous: fabric would only keep
  custom fields if they were registered for serialization.  All negative
  results below survive this generosity.)
* `canvas.add` / `canvas.remove` fire the `object:added` /
  `object:removed` handlers of `setupEventListeners` synchronously, hence
  they invoke `saveState` unless the object is a drawing preview or a
  restore is in flight — exactly as in the TypeScript, where the handlers
  are installed before the base layer is created.
* The `BaseLayer` subclass (`src/lib/core/subclass/BaseLayer.ts`) sets
  `static type = 'BaseLayer'` but never sets the ad-hoc `isBaseLayer`
  flag, and `initializeBaseLayer` in the core manager does not pass it
  either; so in the model the base-layer object has
  `otype = "baselayer"` (the fabric instance `type` string) and
  `isBaseLayer = false`, while `instanceof BaseLayer` checks are
  `otype == "baselayer"`.
-/

namespace Rupix

/-- The tool palette (`ToolType` in `DesignManager.ts`). -/
inductive ToolType where
  | select
  | rectangle
  | circle
  | text
  | image
  | pen
deriving DecidableEq, Repr

/-- A 2D point in scene coordinates. -/
structure Point where
  x : ℚ
  y : ℚ
deriving DecidableEq, Repr

/-- A fabric scene object: the common attributes the core reads or
writes.  `otype` is the fabric instance `type` discriminator
(`"rect"`, `"circle"`, `"i-text"`, `"image"`, `"baselayer"`, …).
`layerId`, `name`, `text`, `isBaseLayer` and `isDrawingPreview` are the
ad-hoc fields declared by the module augmentation in
`DesignManager.ts`. -/
structure ScnObj where
  otype : String
  left : ℚ
  top : ℚ
  width : ℚ
  height : ℚ
  radius : ℚ
  scaleX : ℚ
  scaleY : ℚ
  angle : ℚ
  fill : String
  stroke : String
  strokeWidth : ℚ
  opacity : ℚ
  layerId : Option ℕ
  name : Option String
  text : Option String
  isBaseLayer : Bool
  isDrawingPreview : Bool
  selectable : Bool
  evented : Bool
  visible : Bool
deriving DecidableEq, Repr

/-- Geometric bounding box `(left, top, width, height)` of an object: a
circle's box is the square of side `2 * radius` at its `left/top`. -/
def ScnObj.bounds (o : ScnObj) : ℚ × ℚ × ℚ × ℚ :=
  if o.otype = "circle" then (o.left, o.top, 2 * o.radius, 2 * o.radius)
  else (o.left, o.top, o.width, o.height)

/-- `CanvasLayer` of `DesignManager.ts`: the layer registry entry; the
`object` reference is the heap key of the fabric object. -/
structure CanvasLayer where
  id : ℕ
  name : String
  objectId : ℕ
  visible : Bool
  locked : Bool
deriving DecidableEq, Repr

/-- `Omit<CanvasLayer, 'object'>`: the serialized layer metadata stored
in a history snapshot. -/
structure LayerMeta where
  id : ℕ
  name : String
  visible : Bool
  locked : Bool
deriving DecidableEq, Repr

/-- One entry of the history stack: the serialized scene (a by-value
copy of every object on the canvas, in paint order) plus the serialized
layer metadata. -/
structure Snapshot where
  canvas : List ScnObj
  layers : List LayerMeta
deriving DecidableEq, Repr

/-- The live fabric canvas: paint order (index 0 is bottommost), the
active-selection slot and the background color. -/
structure Canvas where
  objects : List ℕ
  activeObject : Option ℕ
  backgroundColor : String
deriving DecidableEq, Repr

/-- `BaseLayerConfig` of `DesignManager.ts`. -/
structure BaseLayerConfig where
  width : ℚ
  height : ℚ
  x : ℚ
  y : ℚ
  fill : String
  stroke : String
  strokeWidth : ℚ
  opacity : ℚ
deriving DecidableEq, Repr

/-- The default `baseLayerConfig`. -/
def BaseLayerConfig.default : BaseLayerConfig :=
  ⟨800, 600, 0, 0, "#ffffff", "#000000", 1, 1⟩

/-- The shape-style parameter record taken by `addRectangle`,
`addCircle` and their `WithDimensions` variants. -/
structure ShapeProps where
  fill : String
  stroke : String
  strokeWidth : ℚ
  opacity : ℚ
deriving DecidableEq, Repr

/-- The `DesignManager` state: one open document.  Object references are
heap keys; `nextOid` allocates object identities and `nextUuid` models
`uuidv4()` for layer ids. -/
structure DesignManager where
  heap : List (ℕ × ScnObj)
  nextOid : ℕ
  canvas : Option Canvas
  layers : List CanvasLayer
  selectedLayerId : Option ℕ
  baseLayer : Option ℕ
  baseLayerConfig : BaseLayerConfig
  clippingEnabled : Bool
  selectedTool : ToolType
  fillColor : String
  strokeColor : String
  strokeWidth : ℚ
  opacity : ℚ
  isDrawingObject : Bool
  drawingStartPoint : Option Point
  drawingPreviewObject : Option ℕ
  cameraLocked : Bool
  historyStack : List Snapshot
  historyPointer : ℤ
  isRestoringState : Bool
  nextUuid : ℕ
  firedToolChanges : List ToolType
deriving DecidableEq, Repr

/-- A freshly constructed `DesignManager` (the constructor defaults). -/
def DesignManager.new : DesignManager where
  heap := []
  nextOid := 0
  canvas := none
  layers := []
  selectedLayerId := none
  baseLayer := none
  baseLayerConfig := BaseLayerConfig.default
  clippingEnabled := true
  selectedTool := .select
  fillColor := "#3b82f6"
  strokeColor := "transparent"
  strokeWidth := 0
  opacity := 1
  isDrawingObject := false
  drawingStartPoint := none
  drawingPreviewObject := none
  cameraLocked := true
  historyStack := []
  historyPointer := -1
  isRestoringState := false
  nextUuid := 0
  firedToolChanges := []

namespace DesignManager

/-- Dereference a heap key. -/
def heapGet (dm : DesignManager) (oid : ℕ) : Option ScnObj :=
  (dm.heap.find? (fun p => p.1 == oid)).map (·.2)

/-- Overwrite the object stored at a heap key (mutation through any
alias). -/
def heapSet (dm : DesignManager) (oid : ℕ) (o : ScnObj) : DesignManager :=
  { dm with heap := dm.heap.map (fun p => if p.1 == oid then (oid, o) else p) }

/-- Allocate a fresh object on the heap, returning its key. -/
def alloc (dm : DesignManager) (o : ScnObj) : DesignManager × ℕ :=
  ({ dm with heap := dm.heap ++ [(dm.nextOid, o)], nextOid := dm.nextOid + 1 },
   dm.nextOid)

/-- `canvas.getObjects()` dereferenced to object records, in paint
order. -/
def getObjects (dm : DesignManager) : List ScnObj :=
  match dm.canvas with
  | none => []
  | some c => c.objects.filterMap dm.heapGet

/-- `canUndo()`. -/
def canUndo (dm : DesignManager) : Bool :=
  dm.historyPointer > 0

/-- `canRedo()`. -/
def canRedo (dm : DesignManager) : Bool :=
  dm.historyPointer < dm.historyStack.length - 1

/-- `saveState()`: serializes the scene and the layer metadata, truncates
the forward history and pushes, unless a restore is in flight or there is
no canvas. -/
def saveState (dm : DesignManager) : DesignManager :=
  if dm.isRestoringState then dm else
  match dm.canvas with
  | none => dm
  | some c =>
    let snap : Snapshot :=
      ⟨c.objects.filterMap dm.heapGet,
       dm.layers.map (fun l => ⟨l.id, l.name, l.visible, l.locked⟩)⟩
    let stack :=
      if dm.historyPointer < (dm.historyStack.length : ℤ) - 1 then
        dm.historyStack.take (dm.historyPointer + 1).toNat
      else dm.historyStack
    let stack := stack ++ [snap]
    { dm with historyStack := stack, historyPointer := (stack.length : ℤ) - 1 }

/-- The `object:added` side of `canvas.add(obj)`: append to the paint
order and fire the history handler (which skips drawing previews). -/
def canvasAdd (dm : DesignManager) (oid : ℕ) : DesignManager :=
  let dm' := { dm with
    canvas := dm.canvas.map (fun c => { c with objects := c.objects ++ [oid] }) }
  if ((dm'.heapGet oid).map (·.isDrawingPreview)).getD false then dm'
  else dm'.saveState

/-- `canvas.remove(obj)`: drop the reference from the paint order (if
present), discard it from the active slot, and fire the `object:removed`
history handler (which skips drawing previews). -/
def canvasRemove (dm : DesignManager) (oid : ℕ) : DesignManager :=
  match dm.canvas with
  | none => dm
  | some c =>
    if oid ∈ c.objects then
      let c' : Canvas :=
        { c with objects := c.objects.erase oid,
                 activeObject := if c.activeObject == some oid then none
                                 else c.activeObject }
      let dm' := { dm with canvas := some c' }
      if ((dm'.heapGet oid).map (·.isDrawingPreview)).getD false then dm'
      else dm'.saveState
    else dm

/-- `canvas.sendObjectToBack(obj)`: fabric removes the reference from
the paint order if present and unshifts it, so an off-canvas reference is
re-inserted at the bottom. -/
def sendObjectToBack (dm : DesignManager) (oid : ℕ) : DesignManager :=
  { dm with canvas :=
      dm.canvas.map (fun c => { c with objects := oid :: c.objects.erase oid }) }

/-- `canvas.setActiveObject(obj)`. -/
def setActiveObject (dm : DesignManager) (oid : ℕ) : DesignManager :=
  { dm with canvas := dm.canvas.map (fun c => { c with activeObject := some oid }) }

/-- Re-pin the base layer: `if (this.baseLayer) canvas.sendObjectToBack(this.baseLayer)`. -/
def repinBase (dm : DesignManager) : DesignManager :=
  match dm.baseLayer with
  | some b => dm.sendObjectToBack b
  | none => dm

/-- `addLayer(layerData)`: assign a fresh id, tag the fabric object with
it, append to the registry, select it, and re-pin the base layer.
Returns the new layer. -/
def addLayer (dm : DesignManager) (name : String) (objectId : ℕ)
    (visible locked : Bool) : DesignManager × CanvasLayer :=
  let id := dm.nextUuid
  let layer : CanvasLayer := ⟨id, name, objectId, visible, locked⟩
  let dm :=
    match dm.heapGet objectId with
    | some o => dm.heapSet objectId { o with layerId := some id }
    | none => dm
  let dm := { dm with
    nextUuid := id + 1,
    layers := dm.layers ++ [layer],
    selectedLayerId := some id }
  let dm :=
    match dm.baseLayer, dm.canvas with
    | some b, some _ => dm.sendObjectToBack b
    | _, _ => dm
  (dm, layer)

/-- The common fields of a user-created fabric shape (the corner/border
styling options of the source are cosmetic and not modelled). -/
def mkShape (otype : String) (pos : Point) (w h r : ℚ)
    (fill stroke : String) (sw op : ℚ) : ScnObj where
  otype := otype
  left := pos.x
  top := pos.y
  width := w
  height := h
  radius := r
  scaleX := 1
  scaleY := 1
  angle := 0
  fill := fill
  stroke := stroke
  strokeWidth := sw
  opacity := op
  layerId := none
  name := none
  text := none
  isBaseLayer := false
  isDrawingPreview := false
  selectable := true
  evented := true
  visible := true

/-- `addRectangle(pos, props)`: a 100×80 rectangle at `pos`.  Note the
source hardcodes `stroke: '#000000'` and `strokeWidth: 1`, ignoring
`props.stroke` and `props.strokeWidth`. -/
def addRectangle (dm : DesignManager) (pos : Point) (props : ShapeProps) :
    DesignManager :=
  match dm.canvas with
  | none => dm
  | some _ =>
    let o := mkShape "rect" pos 100 80 0 props.fill "#000000" 1 props.opacity
    let (dm, oid) := dm.alloc o
    let dm := dm.canvasAdd oid
    let dm := dm.setActiveObject oid
    let dm := dm.repinBase
    (addLayer dm "Rectangle" oid true false).1

/-- `addRectangleWithDimensions(pos, width, height, props)`. -/
def addRectangleWithDimensions (dm : DesignManager) (pos : Point)
    (width height : ℚ) (props : ShapeProps) : DesignManager :=
  match dm.canvas with
  | none => dm
  | some _ =>
    let o := mkShape "rect" pos width height 0
      props.fill props.stroke props.strokeWidth props.opacity
    let (dm, oid) := dm.alloc o
    let dm := dm.canvasAdd oid
    let dm := dm.setActiveObject oid
    let dm := dm.repinBase
    (addLayer dm "Rectangle" oid true false).1

/-- `addCircle(pos, props)`: a radius-50 circle at `pos`.  As with
`addRectangle`, the source hardcodes `stroke: '#000000'` and
`strokeWidth: 1`. -/
def addCircle (dm : DesignManager) (pos : Point) (props : ShapeProps) :
    DesignManager :=
  match dm.canvas with
  | none => dm
  | some _ =>
    let o := mkShape "circle" pos 0 0 50 props.fill "#000000" 1 props.opacity
    let (dm, oid) := dm.alloc o
    let dm := dm.canvasAdd oid
    let dm := dm.setActiveObject oid
    let dm := dm.repinBase
    (addLayer dm "Circle" oid true false).1

/-- `addCircleWithDimensions(pos, radius, props)`. -/
def addCircleWithDimensions (dm : DesignManager) (pos : Point)
    (radius : ℚ) (props : ShapeProps) : DesignManager :=
  match dm.canvas with
  | none => dm
  | some _ =>
    let o := mkShape "circle" pos 0 0 radius
      props.fill props.stroke props.strokeWidth props.opacity
    let (dm, oid) := dm.alloc o
    let dm := dm.canvasAdd oid
    let dm := dm.setActiveObject oid
    let dm := dm.repinBase
    (addLayer dm "Circle" oid true false).1

/-- `addText(pos, props)`: an empty editable text at `pos` (only the
fields the model tracks; the source hardcodes `fill: '#000000'`). -/
def addText (dm : DesignManager) (pos : Point) (opacity : ℚ) :
    DesignManager :=
  match dm.canvas with
  | none => dm
  | some _ =>
    let o := { mkShape "i-text" pos 0 0 0 "#000000" "" 0 opacity with
               text := some "" }
    let (dm, oid) := dm.alloc o
    let dm := dm.canvasAdd oid
    let dm := dm.setActiveObject oid
    let dm := dm.repinBase
    (addLayer dm "Text" oid true false).1

/-- `initializeBaseLayer()`: creates the `BaseLayer` rectangle from the
config and pins it to the bottom.  The source does *not* set the ad-hoc
`isBaseLayer` flag on it (unlike the older `design-store.ts` copy), so
the flag stays `false`; `instanceof BaseLayer` checks see
`otype = "baselayer"`. -/
def initializeBaseLayer (dm : DesignManager) : DesignManager :=
  match dm.canvas with
  | none => dm
  | some _ =>
    let cfg := dm.baseLayerConfig
    let o : ScnObj :=
      { mkShape "baselayer" ⟨cfg.x, cfg.y⟩ cfg.width cfg.height 0
          cfg.fill cfg.stroke cfg.strokeWidth cfg.opacity with
        selectable := false, evented := false }
    let (dm, oid) := dm.alloc o
    let dm := { dm with baseLayer := some oid }
    let dm := dm.canvasAdd oid
    dm.sendObjectToBack oid

/-- `initCanvas(...)`: create the live canvas and initialize the base
layer (listeners are installed first, so the base-layer add already
snapshots). -/
def initCanvas (dm : DesignManager) (backgroundColor : String) :
    DesignManager :=
  let dm := { dm with canvas := some ⟨[], none, backgroundColor⟩ }
  dm.initializeBaseLayer

/-- `setSelectedTool(tool)` (the cursor update is cosmetic). -/
def setSelectedTool (dm : DesignManager) (tool : ToolType) : DesignManager :=
  { dm with selectedTool := tool }

/-- `createDrawingPreview(startPoint, endPoint)`: a dashed, flagged,
non-evented preview object for the current tool (no preview for other
tools). -/
def createDrawingPreview (dm : DesignManager) (startPoint endPoint : Point) :
    DesignManager :=
  match dm.canvas with
  | none => dm
  | some _ =>
    let left := min startPoint.x endPoint.x
    let top := min startPoint.y endPoint.y
    let width := |endPoint.x - startPoint.x|
    let height := |endPoint.y - startPoint.y|
    let finalWidth := max width 5
    let finalHeight := max height 5
    let preview? : Option ScnObj :=
      if dm.selectedTool = .rectangle then
        some { mkShape "rect" ⟨left, top⟩ finalWidth finalHeight 0
                 "transparent" "#3b82f6" 1 (4/5) with
               isDrawingPreview := true, selectable := false, evented := false }
      else if dm.selectedTool = .circle then
        let radius := min finalWidth finalHeight / 2
        some { mkShape "circle"
                 ⟨left + finalWidth / 2 - radius, top + finalHeight / 2 - radius⟩
                 0 0 radius "transparent" "#3b82f6" 1 (4/5) with
               isDrawingPreview := true, selectable := false, evented := false }
      else if dm.selectedTool = .image then
        some { mkShape "group" ⟨left, top⟩ finalWidth finalHeight 0
                 "" "" 0 1 with
               isDrawingPreview := true, selectable := false, evented := false }
      else none
    match preview? with
    | none => dm
    | some o =>
      let (dm, oid) := dm.alloc o
      let dm := { dm with drawingPreviewObject := some oid }
      dm.canvasAdd oid

/-- `startDrawing(point)`: enter the Drawing state and show the initial
preview. -/
def startDrawing (dm : DesignManager) (point : Point) : DesignManager :=
  let dm := { dm with isDrawingObject := true, drawingStartPoint := some point }
  dm.createDrawingPreview point point

/-- `updateDrawingPreview(currentPoint)`: replace the preview with one
spanning the current drag box. -/
def updateDrawingPreview (dm : DesignManager) (currentPoint : Point) :
    DesignManager :=
  match dm.drawingStartPoint with
  | none => dm
  | some sp =>
    let dm :=
      match dm.drawingPreviewObject, dm.canvas with
      | some pv, some _ => dm.canvasRemove pv
      | _, _ => dm
    dm.createDrawingPreview sp currentPoint

/-- `finishDrawing(endPoint)`: remove the preview; commit a shape when
the drag box is at least 10×10 (the image tool only opens a file picker,
which adds nothing synchronously); then leave the Drawing state, revert
the tool to `select` and fire `tool_change`. -/
def finishDrawing (dm : DesignManager) (endPoint : Point) : DesignManager :=
  match dm.canvas, dm.drawingStartPoint with
  | some _, some sp =>
    let dm :=
      match dm.drawingPreviewObject with
      | some pv => { dm.canvasRemove pv with drawingPreviewObject := none }
      | none => dm
    let left := min sp.x endPoint.x
    let top := min sp.y endPoint.y
    let width := |endPoint.x - sp.x|
    let height := |endPoint.y - sp.y|
    let dm :=
      if 10 ≤ width ∧ 10 ≤ height then
        let props : ShapeProps :=
          ⟨dm.fillColor, dm.strokeColor, dm.strokeWidth, dm.opacity⟩
        if dm.selectedTool = .rectangle then
          dm.addRectangleWithDimensions ⟨left, top⟩ width height props
        else if dm.selectedTool = .circle then
          let radius := min width height / 2
          let centerX := left + width / 2
          let centerY := top + height / 2
          dm.addCircleWithDimensions ⟨centerX - radius, centerY - radius⟩
            radius props
        else dm
      else dm
    { dm with
      isDrawingObject := false,
      drawingStartPoint := none,
      selectedTool := .select,
      firedToolChanges := dm.firedToolChanges ++ [ToolType.select] }
  | _, _ => dm

/-- `duplicateActiveObject()`: clone the active object (guarded by the
`isBaseLayer` flag), offset the clone by 20 in both axes, add it, and
register a layer named `"<original> Copy"` (or `"Duplicated Object"`
when the active object has no registry entry).  Returns the clone's
reference, or `none`. -/
def duplicateActiveObject (dm : DesignManager) : DesignManager × Option ℕ :=
  match dm.canvas with
  | none => (dm, none)
  | some c =>
    match c.activeObject with
    | none => (dm, none)
    | some aoid =>
      match dm.heapGet aoid with
      | none => (dm, none)
      | some ao =>
        if ao.isBaseLayer then (dm, none) else
        let cloned := { ao with left := ao.left + 20, top := ao.top + 20 }
        let (dm, cid) := dm.alloc cloned
        let dm := dm.canvasAdd cid
        let dm := dm.setActiveObject cid
        let dm := dm.repinBase
        let layerName :=
          match dm.layers.find? (fun l => l.objectId == aoid) with
          | some l => l.name ++ " Copy"
          | none => "Duplicated Object"
        ((addLayer dm layerName cid true false).1, some cid)

/-- `removeLayer(layerId)`: remove the object and the registry entry;
clear the selection if it pointed at the removed layer. -/
def removeLayer (dm : DesignManager) (layerId : ℕ) : DesignManager :=
  let dm :=
    match dm.layers.find? (fun l => l.id == layerId), dm.canvas with
    | some l, some _ => dm.canvasRemove l.objectId
    | _, _ => dm
  let dm := { dm with layers := dm.layers.filter (fun l => l.id ≠ layerId) }
  if dm.selectedLayerId == some layerId then
    { dm with selectedLayerId := none }
  else dm

/-- `updateCanvasObjectOrder()`: remove every object whose `isBaseLayer`
flag is unset (which, the flag never being set, includes the `BaseLayer`
object itself), re-add the registry's objects in registry order, and
re-pin the base layer. -/
def updateCanvasObjectOrder (dm : DesignManager) : DesignManager :=
  match dm.canvas with
  | none => dm
  | some c =>
    let objs := c.objects.filter
      (fun oid => !(((dm.heapGet oid).map (·.isBaseLayer)).getD false))
    let dm := objs.foldl (fun dm oid => dm.canvasRemove oid) dm
    let dm := dm.layers.foldl (fun dm l => dm.canvasAdd l.objectId) dm
    dm.repinBase

/-- `reorderLayer(layerId, newIndex)`: splice the registry and rebuild
the paint order; no-op when the id is unknown or the index is
unchanged. -/
def reorderLayer (dm : DesignManager) (layerId : ℕ) (newIndex : ℕ) :
    DesignManager :=
  match dm.canvas with
  | none => dm
  | some _ =>
    match dm.layers.findIdx? (fun l => l.id == layerId) with
    | none => dm
    | some currentIndex =>
      if currentIndex = newIndex then dm else
      match dm.layers.get? currentIndex with
      | none => dm
      | some movedLayer =>
        let rest := dm.layers.eraseIdx currentIndex
        let layers := rest.take newIndex ++ [movedLayer] ++ rest.drop newIndex
        let dm := { dm with layers := layers }
        dm.updateCanvasObjectOrder

/-- `canvas.clear()` during a restore: empty the paint order and the
active slot (the history handlers are suppressed by
`isRestoringState`). -/
def clearCanvasObjects (dm : DesignManager) : DesignManager :=
  { dm with canvas :=
      dm.canvas.map (fun c => { c with objects := [], activeObject := none }) }

/-- `canvas.loadFromJSON(json)`: construct a fresh fabric object for
every serialized record, in order (its `object:added` events are
suppressed by `isRestoringState`). -/
def loadObjects (dm : DesignManager) (objs : List ScnObj) : DesignManager :=
  objs.foldl
    (fun dm o =>
      let (dm, oid) := dm.alloc o
      { dm with canvas :=
          dm.canvas.map (fun c => { c with objects := c.objects ++ [oid] }) })
    dm

/-- `rebindState(layerData)`: reacquire the base layer by
`instanceof BaseLayer`, force it non-selectable and non-evented, and
rebuild the registry by matching each serialized layer's id against the
reloaded objects' `layerId` tags, dropping unmatched layers. -/
def rebindState (dm : DesignManager) (layerData : List LayerMeta) :
    DesignManager :=
  match dm.canvas with
  | none => dm
  | some c =>
    let b := c.objects.find?
      (fun oid => ((dm.heapGet oid).map (·.otype == "baselayer")).getD false)
    let dm := { dm with baseLayer := b }
    let dm :=
      match b with
      | some boid =>
        match dm.heapGet boid with
        | some o => dm.heapSet boid { o with selectable := false, evented := false }
        | none => dm
      | none => dm
    let layers := layerData.filterMap (fun d =>
      match c.objects.find?
          (fun oid => ((dm.heapGet oid).bind (·.layerId)) == some d.id) with
      | some oid => some (⟨d.id, d.name, oid, d.visible, d.locked⟩ : CanvasLayer)
      | none => none)
    { dm with layers := layers }

/-- After a restore, `undo`/`redo` overwrite `this.layers` from the
reloaded objects themselves: one entry per non-`BaseLayer` object, id
taken from its `layerId` tag (a fresh uuid when absent), name from
`obj.name ?? obj.text ?? obj.type`. -/
def rebuildLayersFromObjects (dm : DesignManager) : DesignManager :=
  match dm.canvas with
  | none => dm
  | some c =>
    let step := fun (acc : List CanvasLayer × ℕ) (oid : ℕ) =>
      match dm.heapGet oid with
      | none => acc
      | some o =>
        if o.otype == "baselayer" then acc else
        let nm := o.name.getD (o.text.getD o.otype)
        match o.layerId with
        | some lid =>
          (acc.1 ++ [⟨lid, nm, oid, o.visible, !o.selectable⟩], acc.2)
        | none =>
          (acc.1 ++ [⟨acc.2, nm, oid, o.visible, !o.selectable⟩], acc.2 + 1)
    let (ls, nu) := c.objects.foldl step ([], dm.nextUuid)
    { dm with layers := ls, nextUuid := nu }

/-- `undo()`: guarded by `canUndo`; decrement the pointer, reload the
scene from the snapshot there, `rebindState`, then overwrite the
registry from the reloaded objects. -/
def undo (dm : DesignManager) : DesignManager :=
  if ¬ dm.canUndo then dm else
  let dm := { dm with isRestoringState := true,
                      historyPointer := dm.historyPointer - 1 }
  let dm :=
    match dm.canvas, dm.historyStack.get? dm.historyPointer.toNat with
    | some _, some prevState =>
      let dm := dm.clearCanvasObjects
      let dm := dm.loadObjects prevState.canvas
      dm.rebindState prevState.layers
    | _, _ => dm
  let dm := dm.rebuildLayersFromObjects
  { dm with isRestoringState := false }

/-- `redo()`: symmetric to `undo`, guarded by `canRedo`. -/
def redo (dm : DesignManager) : DesignManager :=
  if ¬ dm.canRedo then dm else
  let dm := { dm with isRestoringState := true,
                      historyPointer := dm.historyPointer + 1 }
  let dm :=
    match dm.canvas, dm.historyStack.get? dm.historyPointer.toNat with
    | some _, some nextState =>
      let dm := dm.clearCanvasObjects
      let dm := dm.loadObjects nextState.canvas
      dm.rebindState nextState.layers
    | _, _ => dm
  let dm := dm.rebuildLayersFromObjects
  { dm with isRestoringState := false }

end DesignManager

/-! ## Camera / viewport controller

`handleZoom` and the centering helpers only touch the canvas viewport
transform `[zoom, 0, 0, zoom, panX, panY]` and the base-layer config, so
they are modelled on a small camera state.  The multiplicative wheel
factor `0.999 ** (deltaY * 4)` is floating-point; it is abstracted to an
arbitrary rational factor, which only strengthens the clamping
results. -/

/-- The viewport state of the fabric canvas: element size, zoom and pan
offset (`viewportTransform[4]`, `viewportTransform[5]`). -/
structure CamState where
  width : ℚ
  height : ℚ
  zoom : ℚ
  panX : ℚ
  panY : ℚ
deriving DecidableEq, Repr

/-- `canvas.zoomToPoint(p, z)`: change the zoom so that the scene point
under the screen point `p` stays fixed. -/
def zoomToPoint (c : CamState) (px py z : ℚ) : CamState :=
  let sceneX := (px - c.panX) / c.zoom
  let sceneY := (py - c.panY) / c.zoom
  { c with zoom := z, panX := px - sceneX * z, panY := py - sceneY * z }

/-- `centerCameraPosition()`: keep the current zoom and recompute the pan
so the base layer's center lands on the viewport center. -/
def centerCameraPosition (cfg : BaseLayerConfig) (c : CamState) : CamState :=
  { c with
    panX := c.width / 2 - (cfg.x + cfg.width / 2) * c.zoom,
    panY := c.height / 2 - (cfg.y + cfg.height / 2) * c.zoom }

/-- The fit-to-bounds zoom minimum `min(scaleX, scaleY, 1)` computed from
the viewport minus 80-unit padding. -/
def fitMinimum (cfg : BaseLayerConfig) (c : CamState) : ℚ :=
  min (min ((c.width - 160) / cfg.width) ((c.height - 160) / cfg.height)) 1

/-- One locked wheel-zoom event of `handleZoom` (the
`isZoomModifier && cameraLocked` branch): the proposed zoom
`getZoom() * 0.999**(deltaY*4)` is modelled as `zoom * factor`, clamped
first to the global `[0.1, 20]` range, then to
`[fitMinimum * 0.8, 3]`, applied about the viewport center, and followed
by `centerCameraPosition`. -/
def handleZoomLocked (cfg : BaseLayerConfig) (c : CamState) (factor : ℚ) :
    CamState :=
  let zoom := max (1/10) (min (c.zoom * factor) 20)
  let minZoom := fitMinimum cfg c * (4/5)
  let constrainedZoom := max minZoom (min zoom 3)
  let c := zoomToPoint c (c.width / 2) (c.height / 2) constrainedZoom
  centerCameraPosition cfg c

/-! ## The AI canvas-tool router (`executeCanvasTool`) -/

/-- The JSON `params` object of a tool call, restricted to the fields the
router reads.  Absent fields are `none`; the JS `||`-defaulting of the
source is modelled by `Option.getD`. -/
structure ToolParams where
  x : ℚ := 0
  y : ℚ := 0
  left : Option ℚ := none
  top : Option ℚ := none
  fill : Option String := none
  stroke : Option String := none
  strokeWidth : Option ℚ := none
  opacity : Option ℚ := none
  text : Option String := none
  relative : Bool := false
  uniform : Bool := false
  scaleX : Option ℚ := none
  scaleY : Option ℚ := none
  angle : ℚ := 0
  color : String := ""
  layerName : Option String := none
  index : Option ℕ := none
deriving DecidableEq, Repr

/-- The structured `{success, data}` result of a canvas tool call. -/
structure ToolResult where
  success : Bool
  data : String
deriving DecidableEq, Repr

/-- The command names `executeCanvasTool` implements. -/
def knownCanvasTools : List String :=
  ["getCanvasDimensions", "getActiveObjectInfo", "getAllObjectInfos",
   "createRectangle", "createCircle", "createText",
   "updateObjectProperties", "moveObject", "scaleObject", "rotateObject",
   "changeCanvasBackground", "selectObject", "deleteSelectedObject",
   "duplicateSelectedObject"]

namespace DesignManager

/-- Render a rational for a result message. -/
def qstr (q : ℚ) : String := toString q

/-- Case-insensitive substring test (`name.toLowerCase().includes(...)`). -/
def strIncludes (hay needle : String) : Bool :=
  decide (List.IsInfix needle.toLower.toList hay.toLower.toList)

/-- Patch the active object with the optional fields of a tool-call
`params` record (`selectedObject.set(params)`). -/
def patchObj (o : ScnObj) (p : ToolParams) : ScnObj :=
  { o with
    left := p.left.getD o.left,
    top := p.top.getD o.top,
    fill := p.fill.getD o.fill,
    stroke := p.stroke.getD o.stroke,
    strokeWidth := p.strokeWidth.getD o.strokeWidth,
    opacity := p.opacity.getD o.opacity,
    scaleX := p.scaleX.getD o.scaleX,
    scaleY := p.scaleY.getD o.scaleY }

/-- `executeCanvasTool(toolName, params)` of the design store
(`useActiveDesign.ts`): dispatches on the tool name and returns the
structured result of the matched branch; a tool name matching no branch
falls off the end of the `if/else` chain and returns `undefined`,
modelled as `none`.  (The `try/catch` wrapper is not modelled: the model
throws no exceptions.) -/
def executeCanvasTool (dm : DesignManager) (toolName : String)
    (p : ToolParams) : DesignManager × Option ToolResult :=
  match dm.canvas with
  | none => (dm, some ⟨false, "No active canvas found"⟩)
  | some c =>
    if toolName == "getCanvasDimensions" then
      (dm, some ⟨true, "width: " ++ qstr dm.baseLayerConfig.width ++
                 ", height: " ++ qstr dm.baseLayerConfig.height⟩)
    else if toolName == "getActiveObjectInfo" then
      (dm, some ⟨true, "Active object"⟩)
    else if toolName == "getAllObjectInfos" then
      (dm, some ⟨true, "All objects"⟩)
    else if toolName == "createRectangle" then
      let dm := dm.addRectangle ⟨p.x, p.y⟩
        ⟨p.fill.getD "#3b82f6", p.stroke.getD "#1e40af",
         (p.strokeWidth.getD 2), (p.opacity.getD 1)⟩
      (dm, some ⟨true, "Created rectangle at position (" ++ qstr p.x ++
                 ", " ++ qstr p.y ++ ")"⟩)
    else if toolName == "createCircle" then
      let dm := dm.addCircle ⟨p.x, p.y⟩
        ⟨p.fill.getD "#3b82f6", p.stroke.getD "#1e40af",
         (p.strokeWidth.getD 2), (p.opacity.getD 1)⟩
      (dm, some ⟨true, "Created circle at position (" ++ qstr p.x ++
                 ", " ++ qstr p.y ++ ")"⟩)
    else if toolName == "createText" then
      let dm := dm.addText ⟨p.x, p.y⟩ (p.opacity.getD 1)
      let dm :=
        match dm.canvas.bind (·.activeObject), p.text with
        | some oid, some t =>
          match dm.heapGet oid with
          | some o =>
            if o.otype == "i-text" then dm.heapSet oid { o with text := some t }
            else dm
          | none => dm
        | _, _ => dm
      (dm, some ⟨true, "Created text at position (" ++ qstr p.x ++ ", " ++
                 qstr p.y ++ ")"⟩)
    else if toolName == "updateObjectProperties" then
      match c.activeObject with
      | none => (dm, some ⟨false, "No object selected"⟩)
      | some oid =>
        match dm.heapGet oid with
        | none => (dm, some ⟨false, "No object selected"⟩)
        | some o =>
          (dm.heapSet oid (patchObj o p),
           some ⟨true, "Updated properties of selected object"⟩)
    else if toolName == "moveObject" then
      match c.activeObject with
      | none => (dm, some ⟨false, "No object selected"⟩)
      | some oid =>
        match dm.heapGet oid with
        | none => (dm, some ⟨false, "No object selected"⟩)
        | some o =>
          let o' := if p.relative then
              { o with left := o.left + p.x, top := o.top + p.y }
            else { o with left := p.x, top := p.y }
          (dm.heapSet oid o',
           some ⟨true, "Moved object to position (" ++ qstr p.x ++ ", " ++
                 qstr p.y ++ ")"⟩)
    else if toolName == "scaleObject" then
      match c.activeObject with
      | none => (dm, some ⟨false, "No object selected"⟩)
      | some oid =>
        match dm.heapGet oid with
        | none => (dm, some ⟨false, "No object selected"⟩)
        | some o =>
          let o' :=
            if p.uniform then
              let s := p.scaleX.getD (p.scaleY.getD 1)
              { o with scaleX := s, scaleY := s }
            else
              { o with
                scaleX := p.scaleX.getD (if o.scaleX = 0 then 1 else o.scaleX),
                scaleY := p.scaleY.getD (if o.scaleY = 0 then 1 else o.scaleY) }
          (dm.heapSet oid o', some ⟨true, "Scaled object"⟩)
    else if toolName == "rotateObject" then
      match c.activeObject with
      | none => (dm, some ⟨false, "No object selected"⟩)
      | some oid =>
        match dm.heapGet oid with
        | none => (dm, some ⟨false, "No object selected"⟩)
        | some o =>
          let newAngle := if p.relative then o.angle + p.angle else p.angle
          (dm.heapSet oid { o with angle := newAngle },
           some ⟨true, "Rotated object to " ++ qstr newAngle ++ " degrees"⟩)
    else if toolName == "changeCanvasBackground" then
      ({ dm with canvas := some { c with backgroundColor := p.color } },
       some ⟨true, "Changed canvas background to " ++ p.color⟩)
    else if toolName == "selectObject" then
      match p.layerName with
      | some nm =>
        match dm.layers.find? (fun l => strIncludes l.name nm) with
        | some l =>
          (dm.setActiveObject l.objectId,
           some ⟨true, "Selected object: " ++ l.name⟩)
        | none =>
          (dm, some ⟨false, "No object found with name containing \x22" ++
                nm ++ "\x22"⟩)
      | none =>
        match p.index with
        | some idx =>
          let objs := c.objects.filter
            (fun oid => !(((dm.heapGet oid).map (·.isBaseLayer)).getD false))
          match objs.get? idx with
          | some oid =>
            (dm.setActiveObject oid,
             some ⟨true, "Selected object at index " ++ toString idx⟩)
          | none =>
            (dm, some ⟨false, "No object found at index " ++ toString idx⟩)
        | none => (dm, some ⟨false, "Please provide either layerName or index"⟩)
    else if toolName == "deleteSelectedObject" then
      match c.activeObject with
      | none => (dm, some ⟨false, "No object selected"⟩)
      | some oid =>
        let dm := dm.canvasRemove oid
        let dm :=
          match dm.layers.find? (fun l => l.objectId == oid) with
          | some l => dm.removeLayer l.id
          | none => dm
        (dm, some ⟨true, "Deleted selected object"⟩)
    else if toolName == "duplicateSelectedObject" then
      match c.activeObject with
      | none =>
        (dm, some ⟨false, "No object selected or cannot duplicate base layer"⟩)
      | some oid =>
        if ((dm.heapGet oid).map (·.isBaseLayer)).getD false then
          (dm, some ⟨false, "No object selected or cannot duplicate base layer"⟩)
        else
          ((dm.duplicateActiveObject).1,
           some ⟨true, "Duplicating selected object"⟩)
    else
      (dm, none)

/-- The shared tail of every object-creation operation:
`canvas.add`, `setActiveObject`, base-layer re-pin, `addLayer`. -/
def addPipeline (dm : DesignManager) (o : ScnObj) (nm : String) :
    DesignManager :=
  let (dm1, oid) := dm.alloc o
  let dm2 := dm1.canvasAdd oid
  let dm3 := dm2.setActiveObject oid
  let dm4 := dm3.repinBase
  (addLayer dm4 nm oid true false).1

/-! ### History operation language and claim-support definitions -/

/-- The three History-Engine operations of the spec's invariant claim. -/
inductive HistOp where
  | save
  | undoOp
  | redoOp
deriving DecidableEq, Repr

/-- Apply one history operation. -/
def applyHist : HistOp → DesignManager → DesignManager
  | .save, dm => dm.saveState
  | .undoOp, dm => dm.undo
  | .redoOp, dm => dm.redo

/-- Run a sequence of history operations, left to right. -/
def runHist (ops : List HistOp) (dm : DesignManager) : DesignManager :=
  ops.foldl (fun d op => applyHist op d) dm

/-- The pointer invariant of the History Engine:
`-1 ≤ historyPointer ≤ historyStack.length - 1`. -/
def HistInv (dm : DesignManager) : Prop :=
  -1 ≤ dm.historyPointer ∧
    dm.historyPointer ≤ (dm.historyStack.length : ℤ) - 1

instance (dm : DesignManager) : Decidable (HistInv dm) := by
  unfold HistInv
  infer_instance

/-- The layer-affecting operations of the base-layer pinning claim:
every command that adds, duplicates or reorders a layer. -/
inductive LayerOp where
  | addRect (pos : Point) (props : ShapeProps)
  | addRectDim (pos : Point) (w h : ℚ) (props : ShapeProps)
  | addCirc (pos : Point) (props : ShapeProps)
  | addCircDim (pos : Point) (r : ℚ) (props : ShapeProps)
  | addTextOp (pos : Point) (opacity : ℚ)
  | addLayerRaw (name : String) (objectId : ℕ) (visible locked : Bool)
  | duplicate
  | reorder (layerId : ℕ) (newIndex : ℕ)
deriving DecidableEq, Repr

/-- Apply one layer-affecting operation. -/
def applyLayerOp : LayerOp → DesignManager → DesignManager
  | .addRect pos props, dm => dm.addRectangle pos props
  | .addRectDim pos w h props, dm => dm.addRectangleWithDimensions pos w h props
  | .addCirc pos props, dm => dm.addCircle pos props
  | .addCircDim pos r props, dm => dm.addCircleWithDimensions pos r props
  | .addTextOp pos opacity, dm => dm.addText pos opacity
  | .addLayerRaw name oid v l, dm => (DesignManager.addLayer dm name oid v l).1
  | .duplicate, dm => dm.duplicateActiveObject.1
  | .reorder lid idx, dm => dm.reorderLayer lid idx

/-- The base layer (when a canvas and a base-layer reference exist) is
the bottommost element of the paint order. -/
def baseAtBottom (dm : DesignManager) : Bool :=
  match dm.canvas, dm.baseLayer with
  | some c, some b => c.objects.head? == some b
  | _, _ => true

/-- The registry that the specification's description of `undo`
predicts (stated from the spec's words, for comparison with the code):
each serialized layer whose id matches some reloaded object's embedded
layer-id tag is kept with its serialized id and name; the others are
dropped. -/
def specRebuiltRegistry (serialized : List LayerMeta) (objs : List ScnObj) :
    List (ℕ × String) :=
  serialized.filterMap (fun d =>
    if objs.any (fun o => o.layerId == some d.id) then some (d.id, d.name)
    else none)

/-- One step of `loadFromJSON`: allocate the next serialized object and
append its reference to the paint order (a factoring of the fold in
`loadObjects`). -/
def loadStep (dm : DesignManager) (o : ScnObj) : DesignManager :=
  { (dm.alloc o).1 with
      canvas := (dm.alloc o).1.canvas.map
        (fun c => { c with objects := c.objects ++ [(dm.alloc o).2] }) }

/-- The registry that `undo`/`redo` actually leave (the amended claim):
one entry per reloaded non-`BaseLayer` object in paint order, keyed by
the embedded `layerId` tag when present and by a fresh uuid otherwise,
named `obj.name ?? obj.text ?? obj.type`; `oid0` is the heap key given
to the first reloaded object and `u0` the next fresh uuid.  Returns the
registry together with the uuid counter it leaves behind. -/
def rebuildRegistrySpec : List ScnObj → ℕ → ℕ → List CanvasLayer × ℕ
  | [], _, u0 => ([], u0)
  | o :: rest, oid0, u0 =>
    if o.otype == "baselayer" then rebuildRegistrySpec rest (oid0 + 1) u0
    else
      let nm := o.name.getD (o.text.getD o.otype)
      match o.layerId with
      | some lid =>
        let r := rebuildRegistrySpec rest (oid0 + 1) u0
        (⟨lid, nm, oid0, o.visible, !o.selectable⟩ :: r.1, r.2)
      | none =>
        let r := rebuildRegistrySpec rest (oid0 + 1) (u0 + 1)
        (⟨u0, nm, oid0, o.visible, !o.selectable⟩ :: r.1, r.2)

/-- The running demo document: a fresh manager whose canvas has been
initialized (base layer present, one initial snapshot). -/
def demoBase : DesignManager := DesignManager.new.initCanvas "#ffffff"

/-- The demo shape style handed to creation commands. -/
def demoProps : ShapeProps := ⟨"#ff0000", "#1e40af", 2, 1⟩

/-- Demo: one rectangle created on the demo document. -/
def demoRect : DesignManager := demoBase.addRectangle ⟨50, 50⟩ demoProps

/-- Demo: rectangle, then circle. -/
def demoTwo : DesignManager := demoRect.addCircle ⟨100, 100⟩ demoProps

/-- Demo: rectangle, circle, second rectangle. -/
def demoThree : DesignManager := demoTwo.addRectangle ⟨200, 200⟩ demoProps

/-- Demo: the rectangle document after `duplicateActiveObject()`. -/
def demoDup : DesignManager := demoRect.duplicateActiveObject.1

/-- Demo: a circle-tool drag-to-create gesture from `(0,0)` to
`(20,10)` (box 20×10, above the 10×10 threshold). -/
def demoCircleDrag : DesignManager :=
  (((demoBase.setSelectedTool .circle).startDrawing ⟨0, 0⟩).finishDrawing
    ⟨20, 10⟩)

/-- Demo: a rectangle-tool gesture in flight: drag started at `(0,0)`,
preview updated at `(15,12)` (preview object 2 on canvas, base layer 0). -/
def demoRectDrag : DesignManager :=
  ((demoBase.setSelectedTool .rectangle).startDrawing
    ⟨0, 0⟩).updateDrawingPreview ⟨15, 12⟩

/-- Demo: the result of the `selectObject {index: 0}` canvas tool on the
fresh document — the index filter misses the base layer (its
`isBaseLayer` flag is never set), so this selects the base layer. -/
def demoSelectBase : DesignManager :=
  (demoBase.executeCanvasTool "selectObject"
    { index := some 0 }).1

/-! ### Footprint lemmas

Each operation only writes the state components its source writes; the
following projection lemmas record that and drive the later proofs. -/

theorem saveState_canvas (dm : DesignManager) : (saveState dm).canvas = dm.canvas := by
  unfold saveState; split
  · rfl
  · split <;> rfl

theorem saveState_heap (dm : DesignManager) : (saveState dm).heap = dm.heap := by
  unfold saveState; split
  · rfl
  · split <;> rfl

theorem saveState_layers (dm : DesignManager) : (saveState dm).layers = dm.layers := by
  unfold saveState; split
  · rfl
  · split <;> rfl

theorem saveState_nextOid (dm : DesignManager) : (saveState dm).nextOid = dm.nextOid := by
  unfold saveState; split
  · rfl
  · split <;> rfl

theorem saveState_nextUuid (dm : DesignManager) : (saveState dm).nextUuid = dm.nextUuid := by
  unfold saveState; split
  · rfl
  · split <;> rfl

theorem saveState_baseLayer (dm : DesignManager) : (saveState dm).baseLayer = dm.baseLayer := by
  unfold saveState; split
  · rfl
  · split <;> rfl

theorem saveState_selectedLayerId (dm : DesignManager) :
    (saveState dm).selectedLayerId = dm.selectedLayerId := by
  unfold saveState; split
  · rfl
  · split <;> rfl

theorem saveState_selectedTool (dm : DesignManager) :
    (saveState dm).selectedTool = dm.selectedTool := by
  unfold saveState; split
  · rfl
  · split <;> rfl

theorem saveState_isDrawingObject (dm : DesignManager) :
    (saveState dm).isDrawingObject = dm.isDrawingObject := by
  unfold saveState; split
  · rfl
  · split <;> rfl

theorem saveState_drawingStartPoint (dm : DesignManager) :
    (saveState dm).drawingStartPoint = dm.drawingStartPoint := by
  unfold saveState; split
  · rfl
  · split <;> rfl

theorem saveState_drawingPreviewObject (dm : DesignManager) :
    (saveState dm).drawingPreviewObject = dm.drawingPreviewObject := by
  unfold saveState; split
  · rfl
  · split <;> rfl

theorem saveState_firedToolChanges (dm : DesignManager) :
    (saveState dm).firedToolChanges = dm.firedToolChanges := by
  unfold saveState; split
  · rfl
  · split <;> rfl

theorem saveState_isRestoringState (dm : DesignManager) :
    (saveState dm).isRestoringState = dm.isRestoringState := by
  unfold saveState; split
  · rfl
  · split <;> rfl

theorem saveState_fillColor (dm : DesignManager) :
    (saveState dm).fillColor = dm.fillColor := by
  unfold saveState; split
  · rfl
  · split <;> rfl

theorem saveState_strokeColor (dm : DesignManager) :
    (saveState dm).strokeColor = dm.strokeColor := by
  unfold saveState; split
  · rfl
  · split <;> rfl

theorem saveState_strokeWidth (dm : DesignManager) :
    (saveState dm).strokeWidth = dm.strokeWidth := by
  unfold saveState; split
  · rfl
  · split <;> rfl

theorem saveState_opacity (dm : DesignManager) :
    (saveState dm).opacity = dm.opacity := by
  unfold saveState; split
  · rfl
  · split <;> rfl

theorem saveState_baseLayerConfig (dm : DesignManager) :
    (saveState dm).baseLayerConfig = dm.baseLayerConfig := by
  unfold saveState; split
  · rfl
  · split <;> rfl

theorem canvasAdd_heap (dm : DesignManager) (oid : ℕ) :
    (canvasAdd dm oid).heap = dm.heap := by
  simp only [canvasAdd]
  split
  · rfl
  · rw [saveState_heap]
theorem canvasAdd_layers (dm : DesignManager) (oid : ℕ) :
    (canvasAdd dm oid).layers = dm.layers := by
  simp only [canvasAdd]
  split
  · rfl
  · rw [saveState_layers]
theorem canvasAdd_nextOid (dm : DesignManager) (oid : ℕ) :
    (canvasAdd dm oid).nextOid = dm.nextOid := by
  simp only [canvasAdd]
  split
  · rfl
  · rw [saveState_nextOid]
theorem canvasAdd_nextUuid (dm : DesignManager) (oid : ℕ) :
    (canvasAdd dm oid).nextUuid = dm.nextUuid := by
  simp only [canvasAdd]
  split
  · rfl
  · rw [saveState_nextUuid]
theorem canvasAdd_baseLayer (dm : DesignManager) (oid : ℕ) :
    (canvasAdd dm oid).baseLayer = dm.baseLayer := by
  simp only [canvasAdd]
  split
  · rfl
  · rw [saveState_baseLayer]
theorem canvasAdd_selectedLayerId (dm : DesignManager) (oid : ℕ) :
    (canvasAdd dm oid).selectedLayerId = dm.selectedLayerId := by
  simp only [canvasAdd]
  split
  · rfl
  · rw [saveState_selectedLayerId]
theorem canvasAdd_selectedTool (dm : DesignManager) (oid : ℕ) :
    (canvasAdd dm oid).selectedTool = dm.selectedTool := by
  simp only [canvasAdd]
  split
  · rfl
  · rw [saveState_selectedTool]
theorem canvasAdd_isDrawingObject (dm : DesignManager) (oid : ℕ) :
    (canvasAdd dm oid).isDrawingObject = dm.isDrawingObject := by
  simp only [canvasAdd]
  split
  · rfl
  · rw [saveState_isDrawingObject]
theorem canvasAdd_drawingStartPoint (dm : DesignManager) (oid : ℕ) :
    (canvasAdd dm oid).drawingStartPoint = dm.drawingStartPoint := by
  simp only [canvasAdd]
  split
  · rfl
  · rw [saveState_drawingStartPoint]
theorem canvasAdd_drawingPreviewObject (dm : DesignManager) (oid : ℕ) :
    (canvasAdd dm oid).drawingPreviewObject = dm.drawingPreviewObject := by
  simp only [canvasAdd]
  split
  · rfl
  · rw [saveState_drawingPreviewObject]
theorem canvasAdd_firedToolChanges (dm : DesignManager) (oid : ℕ) :
    (canvasAdd dm oid).firedToolChanges = dm.firedToolChanges := by
  simp only [canvasAdd]
  split
  · rfl
  · rw [saveState_firedToolChanges]
theorem canvasAdd_isRestoringState (dm : DesignManager) (oid : ℕ) :
    (canvasAdd dm oid).isRestoringState = dm.isRestoringState := by
  simp only [canvasAdd]
  split
  · rfl
  · rw [saveState_isRestoringState]
theorem canvasAdd_fillColor (dm : DesignManager) (oid : ℕ) :
    (canvasAdd dm oid).fillColor = dm.fillColor := by
  simp only [canvasAdd]
  split
  · rfl
  · rw [saveState_fillColor]
theorem canvasAdd_strokeColor (dm : DesignManager) (oid : ℕ) :
    (canvasAdd dm oid).strokeColor = dm.strokeColor := by
  simp only [canvasAdd]
  split
  · rfl
  · rw [saveState_strokeColor]
theorem canvasAdd_strokeWidth (dm : DesignManager) (oid : ℕ) :
    (canvasAdd dm oid).strokeWidth = dm.strokeWidth := by
  simp only [canvasAdd]
  split
  · rfl
  · rw [saveState_strokeWidth]
theorem canvasAdd_opacity (dm : DesignManager) (oid : ℕ) :
    (canvasAdd dm oid).opacity = dm.opacity := by
  simp only [canvasAdd]
  split
  · rfl
  · rw [saveState_opacity]
theorem canvasAdd_baseLayerConfig (dm : DesignManager) (oid : ℕ) :
    (canvasAdd dm oid).baseLayerConfig = dm.baseLayerConfig := by
  simp only [canvasAdd]
  split
  · rfl
  · rw [saveState_baseLayerConfig]
theorem saveState_shape (dm : DesignManager) :
    ∃ st pt, saveState dm =
      { dm with historyStack := st, historyPointer := pt } := by
  unfold saveState
  split
  · exact ⟨dm.historyStack, dm.historyPointer, rfl⟩
  · split
    · exact ⟨_, _, rfl⟩
    · exact ⟨_, _, rfl⟩

theorem saveState_shape_from (dm0 dm : DesignManager) (cv : Option Canvas)
    (h : dm = { dm0 with canvas := cv }) :
    ∃ cv2 st pt, saveState dm =
      { dm0 with canvas := cv2, historyStack := st, historyPointer := pt } := by
  obtain ⟨st, pt, h2⟩ := saveState_shape dm
  exact ⟨cv, st, pt, by rw [h2, h]⟩

theorem canvasRemove_shape (dm : DesignManager) (oid : ℕ) :
    ∃ cv st pt, canvasRemove dm oid =
      { dm with canvas := cv, historyStack := st, historyPointer := pt } := by
  unfold canvasRemove
  split
  · exact ⟨dm.canvas, dm.historyStack, dm.historyPointer, rfl⟩
  · split
    · split <;> (dsimp only; split) <;>
        first
        | exact ⟨_, _, _, rfl⟩
        | exact saveState_shape_from dm _ _ rfl
    · exact ⟨dm.canvas, dm.historyStack, dm.historyPointer, rfl⟩

theorem canvasRemove_heap (dm : DesignManager) (oid : ℕ) :
    (canvasRemove dm oid).heap = dm.heap := by
  obtain ⟨cv, st, pt, h⟩ := canvasRemove_shape dm oid
  rw [h]
theorem canvasRemove_layers (dm : DesignManager) (oid : ℕ) :
    (canvasRemove dm oid).layers = dm.layers := by
  obtain ⟨cv, st, pt, h⟩ := canvasRemove_shape dm oid
  rw [h]
theorem canvasRemove_nextOid (dm : DesignManager) (oid : ℕ) :
    (canvasRemove dm oid).nextOid = dm.nextOid := by
  obtain ⟨cv, st, pt, h⟩ := canvasRemove_shape dm oid
  rw [h]
theorem canvasRemove_nextUuid (dm : DesignManager) (oid : ℕ) :
    (canvasRemove dm oid).nextUuid = dm.nextUuid := by
  obtain ⟨cv, st, pt, h⟩ := canvasRemove_shape dm oid
  rw [h]
theorem canvasRemove_baseLayer (dm : DesignManager) (oid : ℕ) :
    (canvasRemove dm oid).baseLayer = dm.baseLayer := by
  obtain ⟨cv, st, pt, h⟩ := canvasRemove_shape dm oid
  rw [h]
theorem canvasRemove_selectedLayerId (dm : DesignManager) (oid : ℕ) :
    (canvasRemove dm oid).selectedLayerId = dm.selectedLayerId := by
  obtain ⟨cv, st, pt, h⟩ := canvasRemove_shape dm oid
  rw [h]
theorem canvasRemove_selectedTool (dm : DesignManager) (oid : ℕ) :
    (canvasRemove dm oid).selectedTool = dm.selectedTool := by
  obtain ⟨cv, st, pt, h⟩ := canvasRemove_shape dm oid
  rw [h]
theorem canvasRemove_isDrawingObject (dm : DesignManager) (oid : ℕ) :
    (canvasRemove dm oid).isDrawingObject = dm.isDrawingObject := by
  obtain ⟨cv, st, pt, h⟩ := canvasRemove_shape dm oid
  rw [h]
theorem canvasRemove_drawingStartPoint (dm : DesignManager) (oid : ℕ) :
    (canvasRemove dm oid).drawingStartPoint = dm.drawingStartPoint := by
  obtain ⟨cv, st, pt, h⟩ := canvasRemove_shape dm oid
  rw [h]
theorem canvasRemove_drawingPreviewObject (dm : DesignManager) (oid : ℕ) :
    (canvasRemove dm oid).drawingPreviewObject = dm.drawingPreviewObject := by
  obtain ⟨cv, st, pt, h⟩ := canvasRemove_shape dm oid
  rw [h]
theorem canvasRemove_firedToolChanges (dm : DesignManager) (oid : ℕ) :
    (canvasRemove dm oid).firedToolChanges = dm.firedToolChanges := by
  obtain ⟨cv, st, pt, h⟩ := canvasRemove_shape dm oid
  rw [h]
theorem canvasRemove_isRestoringState (dm : DesignManager) (oid : ℕ) :
    (canvasRemove dm oid).isRestoringState = dm.isRestoringState := by
  obtain ⟨cv, st, pt, h⟩ := canvasRemove_shape dm oid
  rw [h]
theorem canvasRemove_fillColor (dm : DesignManager) (oid : ℕ) :
    (canvasRemove dm oid).fillColor = dm.fillColor := by
  obtain ⟨cv, st, pt, h⟩ := canvasRemove_shape dm oid
  rw [h]
theorem canvasRemove_strokeColor (dm : DesignManager) (oid : ℕ) :
    (canvasRemove dm oid).strokeColor = dm.strokeColor := by
  obtain ⟨cv, st, pt, h⟩ := canvasRemove_shape dm oid
  rw [h]
theorem canvasRemove_strokeWidth (dm : DesignManager) (oid : ℕ) :
    (canvasRemove dm oid).strokeWidth = dm.strokeWidth := by
  obtain ⟨cv, st, pt, h⟩ := canvasRemove_shape dm oid
  rw [h]
theorem canvasRemove_opacity (dm : DesignManager) (oid : ℕ) :
    (canvasRemove dm oid).opacity = dm.opacity := by
  obtain ⟨cv, st, pt, h⟩ := canvasRemove_shape dm oid
  rw [h]
theorem canvasRemove_baseLayerConfig (dm : DesignManager) (oid : ℕ) :
    (canvasRemove dm oid).baseLayerConfig = dm.baseLayerConfig := by
  obtain ⟨cv, st, pt, h⟩ := canvasRemove_shape dm oid
  rw [h]
theorem repinBase_heap (dm : DesignManager) : dm.repinBase.heap = dm.heap := by
  unfold repinBase
  split <;> rfl
theorem repinBase_layers (dm : DesignManager) : dm.repinBase.layers = dm.layers := by
  unfold repinBase
  split <;> rfl
theorem repinBase_nextOid (dm : DesignManager) : dm.repinBase.nextOid = dm.nextOid := by
  unfold repinBase
  split <;> rfl
theorem repinBase_nextUuid (dm : DesignManager) : dm.repinBase.nextUuid = dm.nextUuid := by
  unfold repinBase
  split <;> rfl
theorem repinBase_baseLayer (dm : DesignManager) : dm.repinBase.baseLayer = dm.baseLayer := by
  unfold repinBase
  split <;> rfl
theorem repinBase_selectedLayerId (dm : DesignManager) : dm.repinBase.selectedLayerId = dm.selectedLayerId := by
  unfold repinBase
  split <;> rfl
theorem repinBase_selectedTool (dm : DesignManager) : dm.repinBase.selectedTool = dm.selectedTool := by
  unfold repinBase
  split <;> rfl
theorem repinBase_isDrawingObject (dm : DesignManager) : dm.repinBase.isDrawingObject = dm.isDrawingObject := by
  unfold repinBase
  split <;> rfl
theorem repinBase_drawingStartPoint (dm : DesignManager) : dm.repinBase.drawingStartPoint = dm.drawingStartPoint := by
  unfold repinBase
  split <;> rfl
theorem repinBase_drawingPreviewObject (dm : DesignManager) : dm.repinBase.drawingPreviewObject = dm.drawingPreviewObject := by
  unfold repinBase
  split <;> rfl
theorem repinBase_firedToolChanges (dm : DesignManager) : dm.repinBase.firedToolChanges = dm.firedToolChanges := by
  unfold repinBase
  split <;> rfl
theorem repinBase_isRestoringState (dm : DesignManager) : dm.repinBase.isRestoringState = dm.isRestoringState := by
  unfold repinBase
  split <;> rfl
theorem repinBase_fillColor (dm : DesignManager) : dm.repinBase.fillColor = dm.fillColor := by
  unfold repinBase
  split <;> rfl
theorem repinBase_strokeColor (dm : DesignManager) : dm.repinBase.strokeColor = dm.strokeColor := by
  unfold repinBase
  split <;> rfl
theorem repinBase_strokeWidth (dm : DesignManager) : dm.repinBase.strokeWidth = dm.strokeWidth := by
  unfold repinBase
  split <;> rfl
theorem repinBase_opacity (dm : DesignManager) : dm.repinBase.opacity = dm.opacity := by
  unfold repinBase
  split <;> rfl
theorem repinBase_baseLayerConfig (dm : DesignManager) : dm.repinBase.baseLayerConfig = dm.baseLayerConfig := by
  unfold repinBase
  split <;> rfl
theorem canvasAdd_canvas (dm : DesignManager) (oid : ℕ) :
    (canvasAdd dm oid).canvas =
      dm.canvas.map (fun c => { c with objects := c.objects ++ [oid] }) := by
  simp only [canvasAdd]
  split
  · rfl
  · rw [saveState_canvas]

theorem canvasRemove_canvas_isSome (dm : DesignManager) (oid : ℕ) :
    (canvasRemove dm oid).canvas.isSome = dm.canvas.isSome := by
  unfold canvasRemove
  split
  · rfl
  · rename_i c hc
    split
    · split <;> (dsimp only; split) <;>
        first
        | (rw [saveState_canvas]; simp [hc])
        | simp [hc]
    · rfl

theorem canvasRemove_canvas_of_mem (dm : DesignManager) (c : Canvas) (oid : ℕ)
    (hc : dm.canvas = some c) (hmem : oid ∈ c.objects) :
    (canvasRemove dm oid).canvas =
      some { c with objects := c.objects.erase oid,
                    activeObject := if c.activeObject == some oid then none
                                    else c.activeObject } := by
  unfold canvasRemove
  rw [hc]
  simp only [hmem, if_true]
  split <;> split <;>
    first
    | rfl
    | rw [saveState_canvas]

theorem sendObjectToBack_canvas (dm : DesignManager) (oid : ℕ) :
    (sendObjectToBack dm oid).canvas =
      dm.canvas.map (fun c => { c with objects := oid :: c.objects.erase oid }) := rfl

theorem setActiveObject_canvas (dm : DesignManager) (oid : ℕ) :
    (setActiveObject dm oid).canvas =
      dm.canvas.map (fun c => { c with activeObject := some oid }) := rfl

theorem repinBase_canvas_isSome (dm : DesignManager) :
    dm.repinBase.canvas.isSome = dm.canvas.isSome := by
  unfold repinBase
  split
  · simp [sendObjectToBack]
  · rfl

theorem clearCanvasObjects_components (dm : DesignManager) :
    (clearCanvasObjects dm).historyStack = dm.historyStack ∧
    (clearCanvasObjects dm).historyPointer = dm.historyPointer ∧
    (clearCanvasObjects dm).isRestoringState = dm.isRestoringState ∧
    (clearCanvasObjects dm).nextUuid = dm.nextUuid ∧
    (clearCanvasObjects dm).canvas.isSome = dm.canvas.isSome := by
  refine ⟨rfl, rfl, rfl, rfl, ?_⟩
  unfold clearCanvasObjects
  cases dm.canvas <;> rfl

theorem loadObjects_historyStack (objs : List ScnObj) (dm : DesignManager) :
    (loadObjects dm objs).historyStack = dm.historyStack := by
  induction objs generalizing dm with
  | nil => rfl
  | cons o os ih =>
    simp only [loadObjects, List.foldl_cons] at *
    rw [ih]
    rfl

theorem loadObjects_historyPointer (objs : List ScnObj) (dm : DesignManager) :
    (loadObjects dm objs).historyPointer = dm.historyPointer := by
  induction objs generalizing dm with
  | nil => rfl
  | cons o os ih =>
    simp only [loadObjects, List.foldl_cons] at *
    rw [ih]
    rfl

theorem loadObjects_isRestoringState (objs : List ScnObj) (dm : DesignManager) :
    (loadObjects dm objs).isRestoringState = dm.isRestoringState := by
  induction objs generalizing dm with
  | nil => rfl
  | cons o os ih =>
    simp only [loadObjects, List.foldl_cons] at *
    rw [ih]
    rfl

theorem loadObjects_nextUuid (objs : List ScnObj) (dm : DesignManager) :
    (loadObjects dm objs).nextUuid = dm.nextUuid := by
  induction objs generalizing dm with
  | nil => rfl
  | cons o os ih =>
    simp only [loadObjects, List.foldl_cons] at *
    rw [ih]
    rfl

theorem loadObjects_canvas_isSome (objs : List ScnObj) (dm : DesignManager) :
    (loadObjects dm objs).canvas.isSome = dm.canvas.isSome := by
  induction objs generalizing dm with
  | nil => rfl
  | cons o os ih =>
    simp only [loadObjects, List.foldl_cons] at *
    rw [ih]
    cases h : dm.canvas <;> simp [alloc, h]

theorem rebindState_components (dm : DesignManager) (ld : List LayerMeta) :
    (rebindState dm ld).historyStack = dm.historyStack ∧
    (rebindState dm ld).historyPointer = dm.historyPointer ∧
    (rebindState dm ld).isRestoringState = dm.isRestoringState ∧
    (rebindState dm ld).nextUuid = dm.nextUuid ∧
    (rebindState dm ld).canvas = dm.canvas := by
  unfold rebindState
  split
  · exact ⟨rfl, rfl, rfl, rfl, rfl⟩
  · dsimp only
    split
    · split <;> exact ⟨rfl, rfl, rfl, rfl, rfl⟩
    · exact ⟨rfl, rfl, rfl, rfl, rfl⟩

theorem rebuildLayersFromObjects_components (dm : DesignManager) :
    (rebuildLayersFromObjects dm).historyStack = dm.historyStack ∧
    (rebuildLayersFromObjects dm).historyPointer = dm.historyPointer ∧
    (rebuildLayersFromObjects dm).isRestoringState = dm.isRestoringState ∧
    (rebuildLayersFromObjects dm).canvas = dm.canvas := by
  unfold rebuildLayersFromObjects
  split
  · exact ⟨rfl, rfl, rfl, rfl⟩
  · exact ⟨rfl, rfl, rfl, rfl⟩

theorem undo_of_not_canUndo (dm : DesignManager) (h : dm.canUndo = false) :
    dm.undo = dm := by
  unfold undo
  simp [h]

theorem redo_of_not_canRedo (dm : DesignManager) (h : dm.canRedo = false) :
    dm.redo = dm := by
  unfold redo
  simp [h]

theorem undo_historyStack (dm : DesignManager) :
    dm.undo.historyStack = dm.historyStack := by
  unfold undo
  split
  · rfl
  · rw [(rebuildLayersFromObjects_components _).1]
    split
    · rw [(rebindState_components _ _).1, loadObjects_historyStack,
        (clearCanvasObjects_components _).1]
    · rfl

theorem redo_historyStack (dm : DesignManager) :
    dm.redo.historyStack = dm.historyStack := by
  unfold redo
  split
  · rfl
  · rw [(rebuildLayersFromObjects_components _).1]
    split
    · rw [(rebindState_components _ _).1, loadObjects_historyStack,
        (clearCanvasObjects_components _).1]
    · rfl

theorem undo_historyPointer (dm : DesignManager) (h : dm.canUndo = true) :
    dm.undo.historyPointer = dm.historyPointer - 1 := by
  unfold undo
  rw [if_neg (by simp [h])]
  rw [(rebuildLayersFromObjects_components _).2.1]
  split
  · rw [(rebindState_components _ _).2.1, loadObjects_historyPointer,
      (clearCanvasObjects_components _).2.1]
  · rfl

theorem redo_historyPointer (dm : DesignManager) (h : dm.canRedo = true) :
    dm.redo.historyPointer = dm.historyPointer + 1 := by
  unfold redo
  rw [if_neg (by simp [h])]
  rw [(rebuildLayersFromObjects_components _).2.1]
  split
  · rw [(rebindState_components _ _).2.1, loadObjects_historyPointer,
      (clearCanvasObjects_components _).2.1]
  · rfl

theorem undo_isRestoringState (dm : DesignManager)
    (h : dm.isRestoringState = false) : dm.undo.isRestoringState = false := by
  unfold undo
  split
  · exact h
  · rfl

theorem redo_isRestoringState (dm : DesignManager)
    (h : dm.isRestoringState = false) : dm.redo.isRestoringState = false := by
  unfold redo
  split
  · exact h
  · rfl

theorem undo_canvas_isSome (dm : DesignManager) :
    dm.undo.canvas.isSome = dm.canvas.isSome := by
  unfold undo
  split
  · rfl
  · rw [(rebuildLayersFromObjects_components _).2.2.2]
    split
    · rename_i hcv hsn
      rw [(rebindState_components _ _).2.2.2.2, loadObjects_canvas_isSome,
        (clearCanvasObjects_components _).2.2.2.2]
    · rfl

theorem redo_canvas_isSome (dm : DesignManager) :
    dm.redo.canvas.isSome = dm.canvas.isSome := by
  unfold redo
  split
  · rfl
  · rw [(rebuildLayersFromObjects_components _).2.2.2]
    split
    · rename_i hcv hsn
      rw [(rebindState_components _ _).2.2.2.2, loadObjects_canvas_isSome,
        (clearCanvasObjects_components _).2.2.2.2]
    · rfl

theorem saveState_pointer_last (dm : DesignManager)
    (hr : dm.isRestoringState = false) (hc : dm.canvas.isSome = true) :
    (saveState dm).historyPointer =
      ((saveState dm).historyStack.length : ℤ) - 1 := by
  obtain ⟨c, hcv⟩ := Option.isSome_iff_exists.mp hc
  unfold saveState
  rw [if_neg (by simp [hr]), hcv]

theorem iterate_undo_canvas_isSome (k : ℕ) (dm : DesignManager) :
    (DesignManager.undo^[k] dm).canvas.isSome = dm.canvas.isSome := by
  induction k generalizing dm with
  | zero => rfl
  | succ n ih =>
    rw [Function.iterate_succ_apply, ih, undo_canvas_isSome]

theorem iterate_undo_isRestoringState (k : ℕ) (dm : DesignManager)
    (h : dm.isRestoringState = false) :
    (DesignManager.undo^[k] dm).isRestoringState = false := by
  induction k generalizing dm with
  | zero => exact h
  | succ n ih =>
    rw [Function.iterate_succ_apply]
    exact ih _ (undo_isRestoringState _ h)

/-- **C5.** For every history stack, after `undo` has been called
`k ≥ 1` times and then a new snapshot is pushed by `saveState`, the
forward branch is truncated: `canRedo()` returns `false` and `redo()` is
a no-op, so the previously undone states are unreachable. -/
theorem newSnapshot_truncates_redo (dm : DesignManager) (k : ℕ)
    (hc : dm.canvas.isSome = true) (hr : dm.isRestoringState = false)
    (hk : 1 ≤ k) :
    canRedo (saveState (DesignManager.undo^[k] dm)) = false ∧
    redo (saveState (DesignManager.undo^[k] dm)) =
      saveState (DesignManager.undo^[k] dm) := by
  set d := DesignManager.undo^[k] dm with hd
  have hdc : d.canvas.isSome = true := by
    rw [hd, iterate_undo_canvas_isSome]; exact hc
  have hdr : d.isRestoringState = false := by
    rw [hd]; exact iterate_undo_isRestoringState k dm hr
  have hptr := saveState_pointer_last d hdr hdc
  have hcr : canRedo (saveState d) = false := by
    unfold canRedo
    rw [hptr]
    simp
  exact ⟨hcr, redo_of_not_canRedo _ hcr⟩

/-- Witness for C5 at a concrete document. -/
theorem newSnapshot_truncates_redo_witness :
    canRedo (saveState (DesignManager.undo^[1] demoBase)) = false ∧
    redo (saveState (DesignManager.undo^[1] demoBase)) =
      saveState (DesignManager.undo^[1] demoBase) :=
  newSnapshot_truncates_redo demoBase 1 (by decide) (by decide) (by decide)

theorem canUndo_iff (dm : DesignManager) :
    dm.canUndo = true ↔ 0 < dm.historyPointer := by
  unfold canUndo
  simp

theorem canRedo_iff (dm : DesignManager) :
    dm.canRedo = true ↔ dm.historyPointer < (dm.historyStack.length : ℤ) - 1 := by
  unfold canRedo
  simp

theorem histInv_applyHist (op : HistOp) (dm : DesignManager)
    (h : HistInv dm) : HistInv (applyHist op dm) := by
  obtain ⟨h1, h2⟩ := h
  cases op with
  | save =>
    show HistInv dm.saveState
    by_cases hr : dm.isRestoringState = true
    · unfold saveState
      rw [if_pos hr]
      exact ⟨h1, h2⟩
    · rcases hcv : dm.canvas with _ | c
      · unfold saveState
        rw [if_neg hr, hcv]
        exact ⟨h1, h2⟩
      · have hp := saveState_pointer_last dm (by simpa using hr)
          (by simp [hcv])
        refine ⟨?_, le_of_eq hp⟩
        rw [hp]
        omega
  | undoOp =>
    show HistInv dm.undo
    by_cases hu : dm.canUndo = true
    · have hp := undo_historyPointer dm hu
      have hs := undo_historyStack dm
      have h3 := (canUndo_iff dm).mp hu
      refine ⟨?_, ?_⟩
      · rw [hp]; omega
      · rw [hp, hs]; omega
    · rw [undo_of_not_canUndo dm (by simpa using hu)]
      exact ⟨h1, h2⟩
  | redoOp =>
    show HistInv dm.redo
    by_cases hu : dm.canRedo = true
    · have hp := redo_historyPointer dm hu
      have hs := redo_historyStack dm
      have h3 := (canRedo_iff dm).mp hu
      refine ⟨?_, ?_⟩
      · rw [hp]; omega
      · rw [hp, hs]; omega
    · rw [redo_of_not_canRedo dm (by simpa using hu)]
      exact ⟨h1, h2⟩

theorem histInv_runHist (ops : List HistOp) (dm : DesignManager)
    (h : HistInv dm) : HistInv (runHist ops dm) := by
  induction ops generalizing dm with
  | nil => exact h
  | cons op ops ih =>
    simp only [runHist, List.foldl_cons] at *
    exact ih _ (histInv_applyHist op dm h)

/-- **C6.** For every sequence of snapshot (`saveState`), `undo`, and
`redo` operations starting from the initial empty history, the invariant
`-1 ≤ historyPointer ≤ historyStack.length - 1` is preserved, and
snapshots already pushed on the stack (up to the live pointer) are never
mutated by any single operation. -/
theorem history_pointer_invariant :
    (∀ (dm : DesignManager) (ops : List HistOp),
        dm.historyStack = [] → dm.historyPointer = -1 →
        HistInv (runHist ops dm)) ∧
    (∀ (op : HistOp) (dm : DesignManager) (i : ℤ), HistInv dm → 0 ≤ i →
        i ≤ dm.historyPointer →
        (applyHist op dm).historyStack[i.toNat]? =
          dm.historyStack[i.toNat]?) := by
  constructor
  · intro dm ops hs hp
    refine histInv_runHist ops dm ?_
    refine ⟨by omega, ?_⟩
    rw [hs, hp]
    simp
  · intro op dm i hinv h0 hi
    cases op with
    | undoOp =>
      show dm.undo.historyStack[_]? = _
      rw [undo_historyStack]
    | redoOp =>
      show dm.redo.historyStack[_]? = _
      rw [redo_historyStack]
    | save =>
      show dm.saveState.historyStack[_]? = _
      have hiN : (i.toNat : ℤ) = i := Int.toNat_of_nonneg h0
      unfold saveState
      split
      · rfl
      · split
        · rfl
        · dsimp only
          split
          · rename_i hlt
            have h1 : i.toNat < (dm.historyPointer + 1).toNat := by omega
            have h2 : i.toNat < dm.historyStack.length := by
              obtain ⟨_, h3⟩ := hinv
              omega
            rw [List.getElem?_append_left, List.getElem?_take_of_lt h1]
            rw [List.length_take]
            omega
          · have h2 : i.toNat < dm.historyStack.length := by
              obtain ⟨_, h3⟩ := hinv
              omega
            rw [List.getElem?_append_left h2]

/-- Witness for C6: both conjuncts applied at concrete inputs. -/
theorem history_pointer_invariant_witness :
    HistInv (runHist [HistOp.save, HistOp.undoOp, HistOp.redoOp]
      DesignManager.new) ∧
    (applyHist HistOp.save demoRect).historyStack[(0 : ℤ).toNat]? =
      demoRect.historyStack[(0 : ℤ).toNat]? :=
  ⟨history_pointer_invariant.1 DesignManager.new _ rfl rfl,
   history_pointer_invariant.2 HistOp.save demoRect 0 (by decide) (by decide)
     (by decide)⟩

end DesignManager

theorem handleZoomLocked_width (cfg : BaseLayerConfig) (c : CamState)
    (f : ℚ) : (handleZoomLocked cfg c f).width = c.width := rfl

theorem handleZoomLocked_height (cfg : BaseLayerConfig) (c : CamState)
    (f : ℚ) : (handleZoomLocked cfg c f).height = c.height := rfl

theorem fitMinimum_eq_of (cfg : BaseLayerConfig) (c c' : CamState)
    (hw : c'.width = c.width) (hh : c'.height = c.height) :
    fitMinimum cfg c' = fitMinimum cfg c := by
  unfold fitMinimum
  rw [hw, hh]

/-- The post-state of any single locked wheel-zoom event: zoom clamped
into `[fitMinimum * 0.8, 3]` and the base layer centered exactly. -/
theorem handleZoomLocked_step (cfg : BaseLayerConfig) (c : CamState)
    (f : ℚ) :
    fitMinimum cfg (handleZoomLocked cfg c f) * (4/5) ≤
        (handleZoomLocked cfg c f).zoom ∧
      (handleZoomLocked cfg c f).zoom ≤ 3 ∧
      (cfg.x + cfg.width / 2) * (handleZoomLocked cfg c f).zoom +
          (handleZoomLocked cfg c f).panX =
        (handleZoomLocked cfg c f).width / 2 ∧
      (cfg.y + cfg.height / 2) * (handleZoomLocked cfg c f).zoom +
          (handleZoomLocked cfg c f).panY =
        (handleZoomLocked cfg c f).height / 2 := by
  rw [fitMinimum_eq_of cfg c (handleZoomLocked cfg c f) rfl rfl]
  simp only [handleZoomLocked, centerCameraPosition, zoomToPoint]
  refine ⟨le_max_left _ _, ?_, by ring, by ring⟩
  refine max_le ?_ (min_le_right _ _)
  have hfit : fitMinimum cfg c ≤ 1 := min_le_right _ _
  nlinarith

theorem handleZoomLocked_foldl_pres (cfg : BaseLayerConfig)
    (P : CamState → Prop)
    (hstep : ∀ c f, P (handleZoomLocked cfg c f)) :
    ∀ (fs : List ℚ) (c : CamState), P c → P (fs.foldl (handleZoomLocked cfg) c) := by
  intro fs
  induction fs with
  | nil => intro c h; exact h
  | cons f fs ih =>
    intro c h
    rw [List.foldl_cons]
    exact ih _ (hstep c f)

/-- **C7.** While the camera is locked, after any nonempty sequence of
wheel-zoom events the zoom factor lies in
`[fitMinimum * 0.8, 3.0]` (with `fitMinimum = min(scaleX, scaleY, 1)`
computed from the viewport minus 80-unit padding), and the viewport
position has been recomputed so the base layer's center coincides with
the viewport center. -/
theorem locked_zoom_clamped (cfg : BaseLayerConfig) (c : CamState)
    (fs : List ℚ) (hne : fs ≠ []) :
    fitMinimum cfg (fs.foldl (handleZoomLocked cfg) c) * (4/5) ≤
        (fs.foldl (handleZoomLocked cfg) c).zoom ∧
      (fs.foldl (handleZoomLocked cfg) c).zoom ≤ 3 ∧
      (cfg.x + cfg.width / 2) * (fs.foldl (handleZoomLocked cfg) c).zoom +
          (fs.foldl (handleZoomLocked cfg) c).panX =
        (fs.foldl (handleZoomLocked cfg) c).width / 2 ∧
      (cfg.y + cfg.height / 2) * (fs.foldl (handleZoomLocked cfg) c).zoom +
          (fs.foldl (handleZoomLocked cfg) c).panY =
        (fs.foldl (handleZoomLocked cfg) c).height / 2 := by
  match fs, hne with
  | f :: fs, _ =>
    rw [List.foldl_cons]
    exact handleZoomLocked_foldl_pres cfg
      (fun d => fitMinimum cfg d * (4/5) ≤ d.zoom ∧ d.zoom ≤ 3 ∧
        (cfg.x + cfg.width / 2) * d.zoom + d.panX = d.width / 2 ∧
        (cfg.y + cfg.height / 2) * d.zoom + d.panY = d.height / 2)
      (fun c f => handleZoomLocked_step cfg c f) fs _
      (handleZoomLocked_step cfg c f)

/-- Witness for C7 at a concrete camera and wheel sequence. -/
theorem locked_zoom_clamped_witness :
    fitMinimum BaseLayerConfig.default
          ([2, 2, 2].foldl (handleZoomLocked BaseLayerConfig.default)
            ⟨1000, 700, 1, 0, 0⟩) * (4/5) ≤
        ([2, 2, 2].foldl (handleZoomLocked BaseLayerConfig.default)
          ⟨1000, 700, 1, 0, 0⟩).zoom ∧
      ([2, 2, 2].foldl (handleZoomLocked BaseLayerConfig.default)
          ⟨1000, 700, 1, 0, 0⟩).zoom ≤ 3 ∧
      (BaseLayerConfig.default.x + BaseLayerConfig.default.width / 2) *
            ([2, 2, 2].foldl (handleZoomLocked BaseLayerConfig.default)
              ⟨1000, 700, 1, 0, 0⟩).zoom +
          ([2, 2, 2].foldl (handleZoomLocked BaseLayerConfig.default)
            ⟨1000, 700, 1, 0, 0⟩).panX =
        ([2, 2, 2].foldl (handleZoomLocked BaseLayerConfig.default)
          ⟨1000, 700, 1, 0, 0⟩).width / 2 ∧
      (BaseLayerConfig.default.y + BaseLayerConfig.default.height / 2) *
            ([2, 2, 2].foldl (handleZoomLocked BaseLayerConfig.default)
              ⟨1000, 700, 1, 0, 0⟩).zoom +
          ([2, 2, 2].foldl (handleZoomLocked BaseLayerConfig.default)
            ⟨1000, 700, 1, 0, 0⟩).panY =
        ([2, 2, 2].foldl (handleZoomLocked BaseLayerConfig.default)
          ⟨1000, 700, 1, 0, 0⟩).height / 2 :=
  locked_zoom_clamped BaseLayerConfig.default ⟨1000, 700, 1, 0, 0⟩ [2, 2, 2]
    (by decide)

namespace DesignManager

/-- **C2 counterexample.** With a live active design, dispatching the
unimplemented command name `"groupObjects"` returns nothing (`none`),
not a structured `{success: false}` result echoing the name. -/
theorem unknown_tool_counterexample :
    demoRect.canvas.isSome = true ∧
    "groupObjects" ∉ knownCanvasTools ∧
    (demoRect.executeCanvasTool "groupObjects" {}).2 = none := by
  refine ⟨by decide, by decide, ?_⟩
  decide

/-- **C2 (amended).** For every call `executeCanvasTool(toolName,
params)` with a live active design, if `toolName` is not one of the
implemented command names, the call falls off the dispatch chain and
returns nothing (`undefined`), leaving the design unchanged; no
structured failure result is produced for unknown names. -/
theorem unknown_tool_returns_nothing (dm : DesignManager)
    (toolName : String) (p : ToolParams)
    (hc : dm.canvas.isSome = true) (hn : toolName ∉ knownCanvasTools) :
    (dm.executeCanvasTool toolName p).2 = none ∧
    (dm.executeCanvasTool toolName p).1 = dm := by
  obtain ⟨c, hcv⟩ := Option.isSome_iff_exists.mp hc
  simp only [knownCanvasTools, List.mem_cons, List.not_mem_nil, or_false,
    not_or] at hn
  obtain ⟨h1, h2, h3, h4, h5, h6, h7, h8, h9, h10, h11, h12, h13, h14⟩ := hn
  unfold executeCanvasTool
  rw [hcv]
  simp [h1, h2, h3, h4, h5, h6, h7, h8, h9, h10, h11, h12, h13, h14]

/-- Witness for the amended C2 at a concrete design and tool name. -/
theorem unknown_tool_returns_nothing_witness :
    (demoRect.executeCanvasTool "ungroupObjects" {}).2 = none ∧
    (demoRect.executeCanvasTool "ungroupObjects" {}).1 = demoRect :=
  unknown_tool_returns_nothing demoRect "ungroupObjects" {} (by decide)
    (by decide)

end DesignManager

namespace DesignManager

/-- **C4 (code bug).** `addRectangle` and `addCircle` accept a style
record with `stroke` and `strokeWidth` but hardcode `stroke: '#000000'`
and `strokeWidth: 1` on the created object, so the shape created from
`demoProps = {fill: '#ff0000', stroke: '#1e40af', strokeWidth: 2,
opacity: 1}` (the values the tool router passes) carries the hardcoded
stroke, not the given one.  The `WithDimensions` variants honor the same
parameters. -/
theorem createShape_ignores_stroke_style :
    (demoRect.heapGet 1).map
        (fun o => (o.fill, o.stroke, o.strokeWidth, o.opacity)) =
      some ("#ff0000", "#000000", 1, 1) ∧
    demoProps.stroke = "#1e40af" ∧ demoProps.strokeWidth = 2 ∧
    ((demoBase.addCircle ⟨10, 10⟩ demoProps).heapGet 1).map
        (fun o => (o.stroke, o.strokeWidth)) = some ("#000000", 1) ∧
    (((demoBase.executeCanvasTool "createRectangle"
          { x := 10, y := 20, stroke := some "#1e40af",
            strokeWidth := some 2 }).1).heapGet 1).map
        (fun o => (o.stroke, o.strokeWidth)) = some ("#000000", 1) ∧
    ((demoBase.addRectangleWithDimensions ⟨10, 10⟩ 40 30 demoProps).heapGet
        1).map (fun o => (o.stroke, o.strokeWidth)) =
      some ("#1e40af", 2) := by
  decide

/-- **C9 (code bug).** The `isBaseLayer` flag is never set on the
`BaseLayer` instance, so with the base layer as the active object
(reachable through the `selectObject {index: 0}` canvas tool, whose
filter also tests the unset flag), `duplicateActiveObject()` does not
return null: it clones the base layer to `(20, 20)`. -/
theorem duplicate_base_layer_not_null :
    (demoBase.heapGet 0).map (fun o => (o.otype, o.isBaseLayer)) =
      some ("baselayer", false) ∧
    demoSelectBase.canvas.map (fun c => c.activeObject) = some (some 0) ∧
    demoSelectBase.duplicateActiveObject.2 = some 1 ∧
    (demoSelectBase.duplicateActiveObject.1.heapGet 1).map
        (fun o => (o.otype, o.left, o.top)) = some ("baselayer", 20, 20) := by
  with_unfolding_all decide

/-- **C3 counterexample.** A circle-tool drag from `(0,0)` to `(20,10)`
passes the 10×10 threshold, but the committed circle has bounds
`(5, 0, 10, 10)` — a diameter-`min(w,h)` circle centered in the drag
box — not the claimed drag rectangle `(0, 0, 20, 10)`. -/
theorem circle_drag_bounds_counterexample :
    demoCircleDrag.canvas.map (fun c => c.objects) = some [0, 2] ∧
    (demoCircleDrag.heapGet 2).map (fun o => (o.otype, o.bounds)) =
      some ("circle", (5, 0, 10, 10)) ∧
    (demoCircleDrag.heapGet 2).map (fun o => o.bounds) ≠
      some (0, 0, 20, 10) := by
  with_unfolding_all decide

end DesignManager

namespace DesignManager

theorem addLayer_fst_components (dm : DesignManager) (nm : String)
    (oid : ℕ) (v l : Bool) :
    (addLayer dm nm oid v l).1.layers =
        dm.layers ++ [⟨dm.nextUuid, nm, oid, v, l⟩] ∧
      (addLayer dm nm oid v l).1.nextUuid = dm.nextUuid + 1 ∧
      (addLayer dm nm oid v l).1.nextOid = dm.nextOid ∧
      (addLayer dm nm oid v l).1.baseLayer = dm.baseLayer ∧
      (addLayer dm nm oid v l).1.selectedTool = dm.selectedTool ∧
      (addLayer dm nm oid v l).1.isDrawingObject = dm.isDrawingObject ∧
      (addLayer dm nm oid v l).1.drawingStartPoint = dm.drawingStartPoint ∧
      (addLayer dm nm oid v l).1.drawingPreviewObject =
        dm.drawingPreviewObject ∧
      (addLayer dm nm oid v l).1.firedToolChanges = dm.firedToolChanges ∧
      (addLayer dm nm oid v l).1.canvas =
        (match dm.baseLayer, dm.canvas with
         | some b, some c => some { c with objects := b :: c.objects.erase b }
         | _, _ => dm.canvas) := by
  unfold addLayer
  dsimp only
  split <;> split <;> simp_all [sendObjectToBack, heapSet]

theorem addRectangleWithDimensions_eq (dm : DesignManager) (c : Canvas)
    (pos : Point) (w h : ℚ) (props : ShapeProps) (hc : dm.canvas = some c) :
    dm.addRectangleWithDimensions pos w h props =
      addPipeline dm
        (mkShape "rect" pos w h 0 props.fill props.stroke props.strokeWidth
          props.opacity) "Rectangle" := by
  unfold addRectangleWithDimensions addPipeline
  rw [hc]

theorem addCircleWithDimensions_eq (dm : DesignManager) (c : Canvas)
    (pos : Point) (r : ℚ) (props : ShapeProps) (hc : dm.canvas = some c) :
    dm.addCircleWithDimensions pos r props =
      addPipeline dm
        (mkShape "circle" pos 0 0 r props.fill props.stroke props.strokeWidth
          props.opacity) "Circle" := by
  unfold addCircleWithDimensions addPipeline
  rw [hc]

theorem addPipeline_spec (dm : DesignManager) (c : Canvas) (o : ScnObj)
    (nm : String) (hc : dm.canvas = some c) :
    (addPipeline dm o nm).canvas = some
        (match dm.baseLayer with
         | some b =>
             { c with objects := b :: (c.objects ++ [dm.nextOid]).erase b,
                      activeObject := some dm.nextOid }
         | none =>
             { c with objects := c.objects ++ [dm.nextOid],
                      activeObject := some dm.nextOid }) ∧
      (addPipeline dm o nm).layers =
        dm.layers ++ [⟨dm.nextUuid, nm, dm.nextOid, true, false⟩] ∧
      (addPipeline dm o nm).nextOid = dm.nextOid + 1 ∧
      (addPipeline dm o nm).nextUuid = dm.nextUuid + 1 ∧
      (addPipeline dm o nm).baseLayer = dm.baseLayer ∧
      (addPipeline dm o nm).selectedTool = dm.selectedTool ∧
      (addPipeline dm o nm).isDrawingObject = dm.isDrawingObject ∧
      (addPipeline dm o nm).drawingStartPoint = dm.drawingStartPoint ∧
      (addPipeline dm o nm).drawingPreviewObject =
        dm.drawingPreviewObject ∧
      (addPipeline dm o nm).firedToolChanges = dm.firedToolChanges := by
  have hpipe : addPipeline dm o nm =
      (addLayer (repinBase (setActiveObject
        (canvasAdd (dm.alloc o).1 dm.nextOid) dm.nextOid)) nm dm.nextOid
        true false).1 := rfl
  rw [hpipe]
  set X3 := setActiveObject (canvasAdd (dm.alloc o).1 dm.nextOid) dm.nextOid
    with hX3
  have hXc : X3.canvas = some
      { c with objects := c.objects ++ [dm.nextOid],
               activeObject := some dm.nextOid } := by
    rw [hX3, setActiveObject_canvas, canvasAdd_canvas,
      show (dm.alloc o).1.canvas = dm.canvas from rfl, hc]
    rfl
  have hXb : X3.baseLayer = dm.baseLayer := by
    rw [hX3]
    rw [show (setActiveObject (canvasAdd (dm.alloc o).1 dm.nextOid)
      dm.nextOid).baseLayer = (canvasAdd (dm.alloc o).1 dm.nextOid).baseLayer
      from rfl, canvasAdd_baseLayer]
    rfl
  have hXlayers : X3.layers = dm.layers := by
    rw [hX3]
    rw [show (setActiveObject (canvasAdd (dm.alloc o).1 dm.nextOid)
      dm.nextOid).layers = (canvasAdd (dm.alloc o).1 dm.nextOid).layers
      from rfl, canvasAdd_layers]
    rfl
  have hXnextOid : X3.nextOid = dm.nextOid + 1 := by
    rw [hX3]
    rw [show (setActiveObject (canvasAdd (dm.alloc o).1 dm.nextOid)
      dm.nextOid).nextOid = (canvasAdd (dm.alloc o).1 dm.nextOid).nextOid
      from rfl, canvasAdd_nextOid]
    rfl
  have hXnextUuid : X3.nextUuid = dm.nextUuid := by
    rw [hX3]
    rw [show (setActiveObject (canvasAdd (dm.alloc o).1 dm.nextOid)
      dm.nextOid).nextUuid = (canvasAdd (dm.alloc o).1 dm.nextOid).nextUuid
      from rfl, canvasAdd_nextUuid]
    rfl
  have hXtool : X3.selectedTool = dm.selectedTool := by
    rw [hX3]
    rw [show (setActiveObject (canvasAdd (dm.alloc o).1 dm.nextOid)
      dm.nextOid).selectedTool =
      (canvasAdd (dm.alloc o).1 dm.nextOid).selectedTool
      from rfl, canvasAdd_selectedTool]
    rfl
  have hXisD : X3.isDrawingObject = dm.isDrawingObject := by
    rw [hX3]
    rw [show (setActiveObject (canvasAdd (dm.alloc o).1 dm.nextOid)
      dm.nextOid).isDrawingObject =
      (canvasAdd (dm.alloc o).1 dm.nextOid).isDrawingObject
      from rfl, canvasAdd_isDrawingObject]
    rfl
  have hXdsp : X3.drawingStartPoint = dm.drawingStartPoint := by
    rw [hX3]
    rw [show (setActiveObject (canvasAdd (dm.alloc o).1 dm.nextOid)
      dm.nextOid).drawingStartPoint =
      (canvasAdd (dm.alloc o).1 dm.nextOid).drawingStartPoint
      from rfl, canvasAdd_drawingStartPoint]
    rfl
  have hXdpo : X3.drawingPreviewObject = dm.drawingPreviewObject := by
    rw [hX3]
    rw [show (setActiveObject (canvasAdd (dm.alloc o).1 dm.nextOid)
      dm.nextOid).drawingPreviewObject =
      (canvasAdd (dm.alloc o).1 dm.nextOid).drawingPreviewObject
      from rfl, canvasAdd_drawingPreviewObject]
    rfl
  have hXfired : X3.firedToolChanges = dm.firedToolChanges := by
    rw [hX3]
    rw [show (setActiveObject (canvasAdd (dm.alloc o).1 dm.nextOid)
      dm.nextOid).firedToolChanges =
      (canvasAdd (dm.alloc o).1 dm.nextOid).firedToolChanges
      from rfl, canvasAdd_firedToolChanges]
    rfl
  clear_value X3
  rcases hb : dm.baseLayer with _ | b
  · have h4 : repinBase X3 = X3 := by
      unfold repinBase
      rw [hXb, hb]
    rw [h4]
    obtain ⟨l1, l2, l3, l4, l5, l6, l7, l8, l9, l10⟩ :=
      addLayer_fst_components X3 nm dm.nextOid true false
    refine ⟨?_, ?_, ?_, ?_, ?_, ?_, ?_, ?_, ?_, ?_⟩
    · rw [l10, hXb, hb, hXc]
    · rw [l1, hXlayers, hXnextUuid]
    · rw [l3, hXnextOid]
    · rw [l2, hXnextUuid]
    · rw [l4, hXb, hb]
    · rw [l5, hXtool]
    · rw [l6, hXisD]
    · rw [l7, hXdsp]
    · rw [l8, hXdpo]
    · rw [l9, hXfired]
  · have h4 : repinBase X3 = sendObjectToBack X3 b := by
      unfold repinBase
      rw [hXb, hb]
    rw [h4]
    obtain ⟨l1, l2, l3, l4, l5, l6, l7, l8, l9, l10⟩ :=
      addLayer_fst_components (sendObjectToBack X3 b) nm dm.nextOid true false
    have hsb : (sendObjectToBack X3 b).baseLayer = dm.baseLayer := hXb
    have hsc : (sendObjectToBack X3 b).canvas = some
        { c with objects := b :: (c.objects ++ [dm.nextOid]).erase b,
                 activeObject := some dm.nextOid } := by
      rw [sendObjectToBack_canvas, hXc]
      rfl
    refine ⟨?_, ?_, ?_, ?_, ?_, ?_, ?_, ?_, ?_, ?_⟩
    · rw [l10, hsb, hb, hsc]
      simp [List.erase_cons_head]
    · rw [l1]
      rw [show (sendObjectToBack X3 b).layers = X3.layers from rfl, hXlayers,
        show (sendObjectToBack X3 b).nextUuid = X3.nextUuid from rfl,
        hXnextUuid]
    · rw [l3]
      exact hXnextOid
    · rw [l2]
      rw [show (sendObjectToBack X3 b).nextUuid = X3.nextUuid from rfl,
        hXnextUuid]
    · rw [l4, hsb, hb]
    · rw [l5]
      exact hXtool
    · rw [l6]
      exact hXisD
    · rw [l7]
      exact hXdsp
    · rw [l8]
      exact hXdpo
    · rw [l9]
      exact hXfired

theorem heapFind_append_fresh (rest : List (ℕ × ScnObj)) (k : ℕ)
    (o : ScnObj) (hfresh : ∀ pr ∈ rest, pr.1 ≠ k) :
    (rest ++ [(k, o)]).find? (fun p => p.1 == k) = some (k, o) := by
  rw [List.find?_append]
  have h1 : rest.find? (fun p => p.1 == k) = none := by
    rw [List.find?_eq_none]
    intro x hx
    simp [hfresh x hx]
  rw [h1]
  simp

theorem map_keyUpdate_eq_of_ne (h : List (ℕ × ScnObj)) (k : ℕ)
    (o2 : ScnObj) (hk : ∀ pr ∈ h, pr.1 ≠ k) :
    h.map (fun p => if p.1 == k then (k, o2) else p) = h := by
  induction h with
  | nil => rfl
  | cons a t ih =>
    simp only [List.map_cons]
    have h1 : ¬((a.1 == k) = true) := by
      simp [hk a (List.mem_cons_self _ _)]
    rw [if_neg h1, ih (fun pr hpr => hk pr (List.mem_cons_of_mem _ hpr))]

theorem heapSet_append_fresh (rest : List (ℕ × ScnObj)) (k : ℕ)
    (o o2 : ScnObj) (hk : ∀ pr ∈ rest, pr.1 ≠ k) :
    (rest ++ [(k, o)]).map (fun p => if p.1 == k then (k, o2) else p) =
      rest ++ [(k, o2)] := by
  rw [List.map_append, map_keyUpdate_eq_of_ne rest k o2 hk]
  simp

theorem addLayer_fst_heap_of_get (dm : DesignManager) (nm : String)
    (oid : ℕ) (v l : Bool) (o : ScnObj) (hget : dm.heapGet oid = some o) :
    (addLayer dm nm oid v l).1.heap =
      dm.heap.map (fun p => if p.1 == oid then
        (oid, { o with layerId := some dm.nextUuid }) else p) := by
  unfold addLayer
  dsimp only
  rw [hget]
  dsimp only [heapSet]
  split <;> rfl

theorem addPipeline_heapGet (dm : DesignManager) (o : ScnObj) (nm : String)
    (hheap : ∀ pr ∈ dm.heap, pr.1 < dm.nextOid) :
    (addPipeline dm o nm).heapGet dm.nextOid =
      some { o with layerId := some dm.nextUuid } := by
  have hfr : ∀ pr ∈ dm.heap, pr.1 ≠ dm.nextOid := by
    intro pr hpr
    exact Nat.ne_of_lt (hheap pr hpr)
  have hpipe : addPipeline dm o nm =
      (addLayer (repinBase (setActiveObject
        (canvasAdd (dm.alloc o).1 dm.nextOid) dm.nextOid)) nm dm.nextOid
        true false).1 := rfl
  rw [hpipe]
  set X4 := repinBase (setActiveObject
    (canvasAdd (dm.alloc o).1 dm.nextOid) dm.nextOid) with hX4def
  have hX4heap : X4.heap = dm.heap ++ [(dm.nextOid, o)] := by
    rw [hX4def, repinBase_heap]
    rw [show (setActiveObject (canvasAdd (dm.alloc o).1 dm.nextOid)
      dm.nextOid).heap = (canvasAdd (dm.alloc o).1 dm.nextOid).heap
      from rfl, canvasAdd_heap]
    rfl
  have hX4uuid : X4.nextUuid = dm.nextUuid := by
    rw [hX4def, repinBase_nextUuid]
    rw [show (setActiveObject (canvasAdd (dm.alloc o).1 dm.nextOid)
      dm.nextOid).nextUuid = (canvasAdd (dm.alloc o).1 dm.nextOid).nextUuid
      from rfl, canvasAdd_nextUuid]
    rfl
  clear_value X4
  have hX4get : X4.heapGet dm.nextOid = some o := by
    unfold heapGet
    rw [hX4heap, heapFind_append_fresh dm.heap dm.nextOid o hfr]
    rfl
  show ((addLayer X4 nm dm.nextOid true false).1.heap.find?
    (fun p => p.1 == dm.nextOid)).map (fun p => p.2) = _
  rw [addLayer_fst_heap_of_get X4 nm dm.nextOid true false o hX4get,
    hX4heap, hX4uuid,
    heapSet_append_fresh dm.heap dm.nextOid o _ hfr,
    heapFind_append_fresh dm.heap dm.nextOid _ hfr]
  rfl

theorem not_mem_erase_self_of_count_one {l : List ℕ} {a : ℕ}
    (h : l.count a = 1) : a ∉ l.erase a := by
  have h1 := List.count_erase_self a l
  rw [h] at h1
  exact List.count_eq_zero.mp h1

theorem not_mem_cons_erase {l : List ℕ} {a b : ℕ} (hne : a ≠ b)
    (h : a ∉ l) : a ∉ b :: l.erase b := by
  intro hmem
  rcases List.mem_cons.mp hmem with h1 | h1
  · exact hne h1
  · exact h (List.mem_of_mem_erase h1)

theorem addPipeline_dpo (dm : DesignManager) (o : ScnObj) (nm : String) :
    (addPipeline dm o nm).drawingPreviewObject =
      dm.drawingPreviewObject := by
  obtain ⟨l1, l2, l3, l4, l5, l6, l7, l8, l9, l10⟩ :=
    addLayer_fst_components (repinBase (setActiveObject
      (canvasAdd (dm.alloc o).1 dm.nextOid) dm.nextOid)) nm dm.nextOid
      true false
  show (addLayer (repinBase (setActiveObject
    (canvasAdd (dm.alloc o).1 dm.nextOid) dm.nextOid)) nm dm.nextOid
    true false).1.drawingPreviewObject = _
  rw [l8, repinBase_drawingPreviewObject]
  rw [show (setActiveObject (canvasAdd (dm.alloc o).1 dm.nextOid)
    dm.nextOid).drawingPreviewObject =
    (canvasAdd (dm.alloc o).1 dm.nextOid).drawingPreviewObject from rfl,
    canvasAdd_drawingPreviewObject]
  rfl

theorem addPipeline_fired (dm : DesignManager) (o : ScnObj) (nm : String) :
    (addPipeline dm o nm).firedToolChanges = dm.firedToolChanges := by
  obtain ⟨l1, l2, l3, l4, l5, l6, l7, l8, l9, l10⟩ :=
    addLayer_fst_components (repinBase (setActiveObject
      (canvasAdd (dm.alloc o).1 dm.nextOid) dm.nextOid)) nm dm.nextOid
      true false
  show (addLayer (repinBase (setActiveObject
    (canvasAdd (dm.alloc o).1 dm.nextOid) dm.nextOid)) nm dm.nextOid
    true false).1.firedToolChanges = _
  rw [l9, repinBase_firedToolChanges]
  rw [show (setActiveObject (canvasAdd (dm.alloc o).1 dm.nextOid)
    dm.nextOid).firedToolChanges =
    (canvasAdd (dm.alloc o).1 dm.nextOid).firedToolChanges from rfl,
    canvasAdd_firedToolChanges]
  rfl

theorem addRectangleWithDimensions_dpo (dm : DesignManager) (pos : Point)
    (w h : ℚ) (props : ShapeProps) :
    (dm.addRectangleWithDimensions pos w h props).drawingPreviewObject =
      dm.drawingPreviewObject := by
  unfold addRectangleWithDimensions
  split
  · rfl
  · exact addPipeline_dpo dm _ "Rectangle"

theorem addCircleWithDimensions_dpo (dm : DesignManager) (pos : Point)
    (r : ℚ) (props : ShapeProps) :
    (dm.addCircleWithDimensions pos r props).drawingPreviewObject =
      dm.drawingPreviewObject := by
  unfold addCircleWithDimensions
  split
  · rfl
  · exact addPipeline_dpo dm _ "Circle"

theorem addRectangleWithDimensions_fired (dm : DesignManager) (pos : Point)
    (w h : ℚ) (props : ShapeProps) :
    (dm.addRectangleWithDimensions pos w h props).firedToolChanges =
      dm.firedToolChanges := by
  unfold addRectangleWithDimensions
  split
  · rfl
  · exact addPipeline_fired dm _ "Rectangle"

theorem addCircleWithDimensions_fired (dm : DesignManager) (pos : Point)
    (r : ℚ) (props : ShapeProps) :
    (dm.addCircleWithDimensions pos r props).firedToolChanges =
      dm.firedToolChanges := by
  unfold addCircleWithDimensions
  split
  · rfl
  · exact addPipeline_fired dm _ "Circle"

theorem addRectangleWithDimensions_canvas (dm : DesignManager) (c : Canvas)
    (pos : Point) (w h : ℚ) (props : ShapeProps) (hc : dm.canvas = some c) :
    (dm.addRectangleWithDimensions pos w h props).canvas = some
      (match dm.baseLayer with
       | some b =>
           { c with objects := b :: (c.objects ++ [dm.nextOid]).erase b,
                    activeObject := some dm.nextOid }
       | none =>
           { c with objects := c.objects ++ [dm.nextOid],
                    activeObject := some dm.nextOid }) := by
  rw [addRectangleWithDimensions_eq dm c pos w h props hc]
  exact (addPipeline_spec dm c _ "Rectangle" hc).1

theorem addCircleWithDimensions_canvas (dm : DesignManager) (c : Canvas)
    (pos : Point) (r : ℚ) (props : ShapeProps) (hc : dm.canvas = some c) :
    (dm.addCircleWithDimensions pos r props).canvas = some
      (match dm.baseLayer with
       | some b =>
           { c with objects := b :: (c.objects ++ [dm.nextOid]).erase b,
                    activeObject := some dm.nextOid }
       | none =>
           { c with objects := c.objects ++ [dm.nextOid],
                    activeObject := some dm.nextOid }) := by
  rw [addCircleWithDimensions_eq dm c pos r props hc]
  exact (addPipeline_spec dm c _ "Circle" hc).1

theorem addRectangleWithDimensions_nextOid (dm : DesignManager)
    (pos : Point) (w h : ℚ) (props : ShapeProps) (hc : dm.canvas.isSome) :
    (dm.addRectangleWithDimensions pos w h props).nextOid =
      dm.nextOid + 1 := by
  obtain ⟨c, hcv⟩ := Option.isSome_iff_exists.mp hc
  rw [addRectangleWithDimensions_eq dm c pos w h props hcv]
  exact (addPipeline_spec dm c _ "Rectangle" hcv).2.2.1

theorem addCircleWithDimensions_nextOid (dm : DesignManager)
    (pos : Point) (r : ℚ) (props : ShapeProps) (hc : dm.canvas.isSome) :
    (dm.addCircleWithDimensions pos r props).nextOid = dm.nextOid + 1 := by
  obtain ⟨c, hcv⟩ := Option.isSome_iff_exists.mp hc
  rw [addCircleWithDimensions_eq dm c pos r props hcv]
  exact (addPipeline_spec dm c _ "Circle" hcv).2.2.1

theorem addRectangleWithDimensions_layers (dm : DesignManager) (c : Canvas)
    (pos : Point) (w h : ℚ) (props : ShapeProps) (hc : dm.canvas = some c) :
    (dm.addRectangleWithDimensions pos w h props).layers =
      dm.layers ++ [⟨dm.nextUuid, "Rectangle", dm.nextOid, true, false⟩] := by
  rw [addRectangleWithDimensions_eq dm c pos w h props hc]
  exact (addPipeline_spec dm c _ "Rectangle" hc).2.1

theorem addCircleWithDimensions_layers (dm : DesignManager) (c : Canvas)
    (pos : Point) (r : ℚ) (props : ShapeProps) (hc : dm.canvas = some c) :
    (dm.addCircleWithDimensions pos r props).layers =
      dm.layers ++ [⟨dm.nextUuid, "Circle", dm.nextOid, true, false⟩] := by
  rw [addCircleWithDimensions_eq dm c pos r props hc]
  exact (addPipeline_spec dm c _ "Circle" hc).2.1

theorem addRectangleWithDimensions_heapGet (dm : DesignManager) (c : Canvas)
    (pos : Point) (w h : ℚ) (props : ShapeProps) (hc : dm.canvas = some c)
    (hheap : ∀ pr ∈ dm.heap, pr.1 < dm.nextOid) :
    (dm.addRectangleWithDimensions pos w h props).heapGet dm.nextOid =
      some { mkShape "rect" pos w h 0 props.fill props.stroke
               props.strokeWidth props.opacity with
             layerId := some dm.nextUuid } := by
  rw [addRectangleWithDimensions_eq dm c pos w h props hc]
  exact addPipeline_heapGet dm _ "Rectangle" hheap

theorem addCircleWithDimensions_heapGet (dm : DesignManager) (c : Canvas)
    (pos : Point) (r : ℚ) (props : ShapeProps) (hc : dm.canvas = some c)
    (hheap : ∀ pr ∈ dm.heap, pr.1 < dm.nextOid) :
    (dm.addCircleWithDimensions pos r props).heapGet dm.nextOid =
      some { mkShape "circle" pos 0 0 r props.fill props.stroke
               props.strokeWidth props.opacity with
             layerId := some dm.nextUuid } := by
  rw [addCircleWithDimensions_eq dm c pos r props hc]
  exact addPipeline_heapGet dm _ "Circle" hheap

theorem finishWrap_canvas (X : DesignManager) (il : Bool)
    (dsp : Option Point) (st : ToolType) (ft : List ToolType) :
    ({ X with isDrawingObject := il, drawingStartPoint := dsp,
              selectedTool := st, firedToolChanges := ft }
      : DesignManager).canvas = X.canvas := rfl

theorem mem_commit_objects {objs : List ℕ} {pv n : ℕ}
    (hnotin : pv ∉ objs) (hne : pv ≠ n) (b? : Option ℕ)
    (hb : ∀ b, b? = some b → pv ≠ b) :
    pv ∉ (match b? with
          | some b => b :: (objs ++ [n]).erase b
          | none => objs ++ [n]) := by
  have hap : pv ∉ objs ++ [n] := by
    intro hmem
    rcases List.mem_append.mp hmem with h1 | h1
    · exact hnotin h1
    · exact hne (List.mem_singleton.mp h1)
  cases b? with
  | none => exact hap
  | some b => exact not_mem_cons_erase (hb b rfl) hap

/-- **C10.** On every pointer-up that ends a drag-to-create
interaction, `finishDrawing` removes the preview object, leaves the
Drawing state, resets the selected tool to `select`, and fires a
`tool_change` notification — including when the drag was below the
10×10 minimum and no object was committed. -/
theorem finishDrawing_resets_tool (dm : DesignManager) (c : Canvas)
    (sp q : Point) (pv : ℕ)
    (hc : dm.canvas = some c)
    (hdraw : dm.isDrawingObject = true)
    (hsp : dm.drawingStartPoint = some sp)
    (hpv : dm.drawingPreviewObject = some pv)
    (hcount : c.objects.count pv = 1)
    (hfresh : pv < dm.nextOid)
    (hbase : dm.baseLayer ≠ some pv) :
    (dm.finishDrawing q).drawingPreviewObject = none ∧
      (dm.finishDrawing q).isDrawingObject = false ∧
      (dm.finishDrawing q).drawingStartPoint = none ∧
      (dm.finishDrawing q).selectedTool = ToolType.select ∧
      (dm.finishDrawing q).firedToolChanges =
        dm.firedToolChanges ++ [ToolType.select] ∧
      ∀ c2, (dm.finishDrawing q).canvas = some c2 → pv ∉ c2.objects := by
  have hmem : pv ∈ c.objects := by
    by_contra hno
    rw [List.count_eq_zero_of_not_mem hno] at hcount
    exact absurd hcount (by decide)
  have hnotin : pv ∉ c.objects.erase pv :=
    not_mem_erase_self_of_count_one hcount
  have hbne : ∀ b, dm.baseLayer = some b → pv ≠ b := by
    intro b hb heq
    exact hbase (by rw [heq, hb])
  have hrc := canvasRemove_canvas_of_mem dm c pv hc hmem
  unfold finishDrawing
  rw [hc, hsp]
  dsimp only
  rw [hpv]
  dsimp only
  split
  · -- drag box at least 10×10
    split
    · -- rectangle tool
      refine ⟨?_, rfl, rfl, rfl, ?_, ?_⟩
      · show (addRectangleWithDimensions _ _ _ _ _).drawingPreviewObject =
          none
        rw [addRectangleWithDimensions_dpo]
      · show (addRectangleWithDimensions _ _ _ _ _).firedToolChanges ++
          [ToolType.select] = _
        rw [addRectangleWithDimensions_fired]
        dsimp only
        rw [canvasRemove_firedToolChanges]
      · intro c2 hc2
        rw [finishWrap_canvas] at hc2
        have hcR : ({ dm.canvasRemove pv with drawingPreviewObject := none }
            : DesignManager).canvas = some
            { c with objects := c.objects.erase pv,
                     activeObject := if c.activeObject == some pv then none
                                     else c.activeObject } := hrc
        rw [addRectangleWithDimensions_canvas _ _ _ _ _ _ hcR] at hc2
        dsimp only at hc2
        rw [canvasRemove_baseLayer, canvasRemove_nextOid] at hc2
        cases hc2
        have hap : pv ∉ c.objects.erase pv ++ [dm.nextOid] := by
          intro hm
          rcases List.mem_append.mp hm with h1 | h1
          · exact hnotin h1
          · have := List.mem_singleton.mp h1
            omega
        rcases hb : dm.baseLayer with _ | b
        · exact hap
        · exact not_mem_cons_erase (hbne b hb) hap
    · split
      · -- circle tool
        refine ⟨?_, rfl, rfl, rfl, ?_, ?_⟩
        · show (addCircleWithDimensions _ _ _ _).drawingPreviewObject =
            none
          rw [addCircleWithDimensions_dpo]
        · show (addCircleWithDimensions _ _ _ _).firedToolChanges ++
            [ToolType.select] = _
          rw [addCircleWithDimensions_fired]
          dsimp only
          rw [canvasRemove_firedToolChanges]
        · intro c2 hc2
          rw [finishWrap_canvas] at hc2
          have hcR : ({ dm.canvasRemove pv with drawingPreviewObject := none }
              : DesignManager).canvas = some
              { c with objects := c.objects.erase pv,
                       activeObject := if c.activeObject == some pv then none
                                       else c.activeObject } := hrc
          rw [addCircleWithDimensions_canvas _ _ _ _ _ hcR] at hc2
          dsimp only at hc2
          rw [canvasRemove_baseLayer, canvasRemove_nextOid] at hc2
          cases hc2
          have hap : pv ∉ c.objects.erase pv ++ [dm.nextOid] := by
            intro hm
            rcases List.mem_append.mp hm with h1 | h1
            · exact hnotin h1
            · have := List.mem_singleton.mp h1
              omega
          rcases hb : dm.baseLayer with _ | b
          · exact hap
          · exact not_mem_cons_erase (hbne b hb) hap
      · -- image or other tool: no synchronous commit
        refine ⟨rfl, rfl, rfl, rfl, ?_, ?_⟩
        · dsimp only
          rw [canvasRemove_firedToolChanges]
        · intro c2 hc2
          dsimp only at hc2
          rw [hrc] at hc2
          cases hc2
          exact hnotin
  · -- sub-threshold drag: nothing committed
    refine ⟨rfl, rfl, rfl, rfl, ?_, ?_⟩
    · dsimp only
      rw [canvasRemove_firedToolChanges]
    · intro c2 hc2
      dsimp only at hc2
      rw [hrc] at hc2
      cases hc2
      exact hnotin

/-- Witness for C10: a sub-threshold rectangle-tool drag on the demo
document still resets the tool and fires `tool_change`. -/
theorem finishDrawing_resets_tool_witness :
    (((demoBase.setSelectedTool .rectangle).startDrawing
        ⟨0, 0⟩).finishDrawing ⟨3, 2⟩).drawingPreviewObject = none ∧
      (((demoBase.setSelectedTool .rectangle).startDrawing
          ⟨0, 0⟩).finishDrawing ⟨3, 2⟩).isDrawingObject = false ∧
      (((demoBase.setSelectedTool .rectangle).startDrawing
          ⟨0, 0⟩).finishDrawing ⟨3, 2⟩).drawingStartPoint = none ∧
      (((demoBase.setSelectedTool .rectangle).startDrawing
          ⟨0, 0⟩).finishDrawing ⟨3, 2⟩).selectedTool = ToolType.select ∧
      (((demoBase.setSelectedTool .rectangle).startDrawing
          ⟨0, 0⟩).finishDrawing ⟨3, 2⟩).firedToolChanges =
        ((demoBase.setSelectedTool .rectangle).startDrawing
          ⟨0, 0⟩).firedToolChanges ++ [ToolType.select] ∧
      ∀ c2, (((demoBase.setSelectedTool .rectangle).startDrawing
          ⟨0, 0⟩).finishDrawing ⟨3, 2⟩).canvas = some c2 → 1 ∉ c2.objects :=
  finishDrawing_resets_tool
    ((demoBase.setSelectedTool .rectangle).startDrawing ⟨0, 0⟩)
    ⟨[0, 1], none, "#ffffff"⟩ ⟨0, 0⟩ ⟨3, 2⟩ 1
    (by with_unfolding_all decide) (by with_unfolding_all decide)
    (by with_unfolding_all decide) (by with_unfolding_all decide)
    (by with_unfolding_all decide) (by with_unfolding_all decide)
    (by with_unfolding_all decide)


theorem baseAtBottom_of_canvas_none (dm : DesignManager)
    (h : dm.canvas = none) : baseAtBottom dm = true := by
  unfold baseAtBottom
  rw [h]

theorem addLayer_fst_baseAtBottom (dm : DesignManager) (nm : String)
    (oid : ℕ) (v l : Bool) :
    baseAtBottom (addLayer dm nm oid v l).1 = true := by
  obtain ⟨-, -, -, hb, -, -, -, -, -, hcv⟩ :=
    addLayer_fst_components dm nm oid v l
  unfold baseAtBottom
  rw [hb, hcv]
  rcases dm.baseLayer with _ | b <;> rcases dm.canvas with _ | c <;> simp

theorem addPipeline_baseAtBottom (dm : DesignManager) (o : ScnObj)
    (nm : String) : baseAtBottom (addPipeline dm o nm) = true := by
  show baseAtBottom (addLayer (repinBase (setActiveObject
    (canvasAdd (dm.alloc o).1 dm.nextOid) dm.nextOid)) nm dm.nextOid
    true false).1 = true
  exact addLayer_fst_baseAtBottom _ nm dm.nextOid true false

theorem repinBase_baseAtBottom (dm : DesignManager) :
    baseAtBottom dm.repinBase = true := by
  unfold repinBase
  rcases hb : dm.baseLayer with _ | b
  · unfold baseAtBottom
    rw [hb]
    rcases dm.canvas <;> rfl
  · unfold baseAtBottom sendObjectToBack
    dsimp only
    rw [hb]
    rcases dm.canvas with _ | c
    · rfl
    · simp

theorem updateCanvasObjectOrder_baseAtBottom (dm : DesignManager) :
    baseAtBottom dm.updateCanvasObjectOrder = true := by
  unfold updateCanvasObjectOrder
  split
  · rename_i hcv
    exact baseAtBottom_of_canvas_none _ hcv
  · dsimp only
    exact repinBase_baseAtBottom _

theorem reorderLayer_baseAtBottom (dm : DesignManager) (lid idx : ℕ)
    (hd : baseAtBottom dm = true) :
    baseAtBottom (dm.reorderLayer lid idx) = true := by
  unfold reorderLayer
  split
  · exact hd
  · split
    · exact hd
    · split
      · exact hd
      · split
        · exact hd
        · dsimp only
          exact updateCanvasObjectOrder_baseAtBottom _

theorem duplicateActiveObject_baseAtBottom (dm : DesignManager)
    (hd : baseAtBottom dm = true) :
    baseAtBottom dm.duplicateActiveObject.1 = true := by
  unfold duplicateActiveObject
  split
  · exact hd
  · split
    · exact hd
    · split
      · exact hd
      · split
        · exact hd
        · dsimp only
          exact addLayer_fst_baseAtBottom _ _ _ _ _

theorem addRectangle_baseAtBottom (dm : DesignManager) (pos : Point)
    (props : ShapeProps) :
    baseAtBottom (dm.addRectangle pos props) = true := by
  unfold addRectangle
  split
  · rename_i hcv
    exact baseAtBottom_of_canvas_none _ hcv
  · exact addPipeline_baseAtBottom dm _ "Rectangle"

theorem addRectangleWithDimensions_baseAtBottom (dm : DesignManager)
    (pos : Point) (w h : ℚ) (props : ShapeProps) :
    baseAtBottom (dm.addRectangleWithDimensions pos w h props) = true := by
  unfold addRectangleWithDimensions
  split
  · rename_i hcv
    exact baseAtBottom_of_canvas_none _ hcv
  · exact addPipeline_baseAtBottom dm _ "Rectangle"

theorem addCircle_baseAtBottom (dm : DesignManager) (pos : Point)
    (props : ShapeProps) :
    baseAtBottom (dm.addCircle pos props) = true := by
  unfold addCircle
  split
  · rename_i hcv
    exact baseAtBottom_of_canvas_none _ hcv
  · exact addPipeline_baseAtBottom dm _ "Circle"

theorem addCircleWithDimensions_baseAtBottom (dm : DesignManager)
    (pos : Point) (r : ℚ) (props : ShapeProps) :
    baseAtBottom (dm.addCircleWithDimensions pos r props) = true := by
  unfold addCircleWithDimensions
  split
  · rename_i hcv
    exact baseAtBottom_of_canvas_none _ hcv
  · exact addPipeline_baseAtBottom dm _ "Circle"

theorem addText_baseAtBottom (dm : DesignManager) (pos : Point)
    (opacity : ℚ) :
    baseAtBottom (dm.addText pos opacity) = true := by
  unfold addText
  split
  · rename_i hcv
    exact baseAtBottom_of_canvas_none _ hcv
  · exact addPipeline_baseAtBottom dm _ "Text"

/-- **C8.** Every operation that adds, duplicates, or reorders a layer
preserves the invariant that the base layer (when a canvas and a
base-layer reference exist) is the bottommost element of the paint
order: each creator and the reorder path end by re-pinning the base
layer to the bottom, and the no-op branches leave the document
untouched. -/
theorem base_layer_bottommost (op : LayerOp) (dm : DesignManager)
    (hd : baseAtBottom dm = true) :
    baseAtBottom (applyLayerOp op dm) = true := by
  cases op with
  | addRect pos props => exact addRectangle_baseAtBottom dm pos props
  | addRectDim pos w h props =>
    exact addRectangleWithDimensions_baseAtBottom dm pos w h props
  | addCirc pos props => exact addCircle_baseAtBottom dm pos props
  | addCircDim pos r props =>
    exact addCircleWithDimensions_baseAtBottom dm pos r props
  | addTextOp pos opacity => exact addText_baseAtBottom dm pos opacity
  | addLayerRaw nm oid v l => exact addLayer_fst_baseAtBottom dm nm oid v l
  | duplicate => exact duplicateActiveObject_baseAtBottom dm hd
  | reorder lid idx => exact reorderLayer_baseAtBottom dm lid idx hd

/-- Witness for C8: duplicating the selected rectangle of the demo
document keeps the base layer at the bottom of the paint order. -/
theorem base_layer_bottommost_witness :
    baseAtBottom demoRect = true ∧
      baseAtBottom (applyLayerOp LayerOp.duplicate demoRect) = true :=
  ⟨by with_unfolding_all decide,
   base_layer_bottommost LayerOp.duplicate demoRect
     (by with_unfolding_all decide)⟩


/-- **C3 amended.** A completed drag-to-create gesture commits exactly
one object when the drag box is at least 10×10 (one allocation, one new
registry layer, the new object on canvas): with the rectangle tool its
bounds are the drag rectangle (min/min to max/max of the two
endpoints), but with the circle tool the committed circle has diameter
`min(width, height)` and is centered in the drag box — not the drag
rectangle the specification claims.  A sub-threshold drag commits
nothing: the preview is removed and allocator, registry and canvas are
otherwise unchanged. -/
theorem drag_create_committed_bounds (dm : DesignManager) (c : Canvas)
    (sp q : Point) (pv : ℕ)
    (hc : dm.canvas = some c)
    (hsp : dm.drawingStartPoint = some sp)
    (hpv : dm.drawingPreviewObject = some pv)
    (hmem : pv ∈ c.objects)
    (hheap : ∀ pr ∈ dm.heap, pr.1 < dm.nextOid)
    (hbase : dm.baseLayer ≠ some dm.nextOid) :
    (10 ≤ |q.x - sp.x| ∧ 10 ≤ |q.y - sp.y| →
      (dm.selectedTool = ToolType.rectangle ∨
          dm.selectedTool = ToolType.circle →
        (dm.finishDrawing q).nextOid = dm.nextOid + 1 ∧
          (dm.finishDrawing q).layers.length = dm.layers.length + 1 ∧
          ∃ c2, (dm.finishDrawing q).canvas = some c2 ∧
            dm.nextOid ∈ c2.objects) ∧
      (dm.selectedTool = ToolType.rectangle →
        ((dm.finishDrawing q).heapGet dm.nextOid).map
            (fun o => (o.otype, o.bounds)) =
          some ("rect",
            (min sp.x q.x, min sp.y q.y, |q.x - sp.x|, |q.y - sp.y|))) ∧
      (dm.selectedTool = ToolType.circle →
        ((dm.finishDrawing q).heapGet dm.nextOid).map
            (fun o => (o.otype, o.bounds)) =
          some ("circle",
            (min sp.x q.x + |q.x - sp.x| / 2 -
               min |q.x - sp.x| |q.y - sp.y| / 2,
             min sp.y q.y + |q.y - sp.y| / 2 -
               min |q.x - sp.x| |q.y - sp.y| / 2,
             min |q.x - sp.x| |q.y - sp.y|,
             min |q.x - sp.x| |q.y - sp.y|)))) ∧
    (¬(10 ≤ |q.x - sp.x| ∧ 10 ≤ |q.y - sp.y|) →
      (dm.finishDrawing q).nextOid = dm.nextOid ∧
        (dm.finishDrawing q).layers = dm.layers ∧
        (dm.finishDrawing q).canvas = some
          { c with objects := c.objects.erase pv,
                   activeObject := if c.activeObject == some pv then none
                                   else c.activeObject }) := by
  have hrc := canvasRemove_canvas_of_mem dm c pv hc hmem
  have hbase2 : ∀ b, dm.baseLayer = some b → dm.nextOid ≠ b := by
    intro b hb hEq
    exact hbase (by rw [hb, hEq])
  unfold finishDrawing
  rw [hc, hsp]
  dsimp only
  rw [hpv]
  dsimp only
  have hcR : ({ dm.canvasRemove pv with drawingPreviewObject := none }
      : DesignManager).canvas = some
      { c with objects := c.objects.erase pv,
               activeObject := if c.activeObject == some pv then none
                               else c.activeObject } := hrc
  have hheapR : ∀ pr ∈ ({ dm.canvasRemove pv with
      drawingPreviewObject := none } : DesignManager).heap,
      pr.1 < ({ dm.canvasRemove pv with drawingPreviewObject := none }
        : DesignManager).nextOid := by
    intro pr hpr
    rw [show ({ dm.canvasRemove pv with drawingPreviewObject := none }
      : DesignManager).nextOid = (dm.canvasRemove pv).nextOid from rfl,
      canvasRemove_nextOid]
    rw [show ({ dm.canvasRemove pv with drawingPreviewObject := none }
      : DesignManager).heap = (dm.canvasRemove pv).heap from rfl,
      canvasRemove_heap] at hpr
    exact hheap pr hpr
  split
  · -- drag box at least 10×10
    rename_i hth
    split
    · -- rectangle tool
      rename_i htoolR
      have htool : dm.selectedTool = ToolType.rectangle := by
        rw [← canvasRemove_selectedTool dm pv]
        exact htoolR
      constructor
      · intro hge
        refine ⟨fun _ => ⟨?_, ?_, ?_⟩, fun _ => ?_, fun hcirc =>
          absurd (htool.symm.trans hcirc) (by decide)⟩
        · show (({ dm.canvasRemove pv with drawingPreviewObject := none }
            : DesignManager).addRectangleWithDimensions _ _ _ _).nextOid =
            dm.nextOid + 1
          rw [addRectangleWithDimensions_nextOid _ _ _ _ _
            (by rw [hcR]; rfl)]
          rw [show ({ dm.canvasRemove pv with drawingPreviewObject := none }
            : DesignManager).nextOid = (dm.canvasRemove pv).nextOid from rfl,
            canvasRemove_nextOid]
        · show (({ dm.canvasRemove pv with drawingPreviewObject := none }
            : DesignManager).addRectangleWithDimensions
              _ _ _ _).layers.length = dm.layers.length + 1
          rw [addRectangleWithDimensions_layers _ _ _ _ _ _ hcR]
          rw [show ({ dm.canvasRemove pv with drawingPreviewObject := none }
            : DesignManager).layers = (dm.canvasRemove pv).layers from rfl,
            canvasRemove_layers, List.length_append]
          rfl
        · have hcv2 := addRectangleWithDimensions_canvas
            ({ dm.canvasRemove pv with drawingPreviewObject := none })
            { c with objects := c.objects.erase pv,
                     activeObject := if c.activeObject == some pv then none
                                     else c.activeObject }
            ⟨min sp.x q.x, min sp.y q.y⟩ |q.x - sp.x| |q.y - sp.y|
            ⟨(dm.canvasRemove pv).fillColor, (dm.canvasRemove pv).strokeColor,
             (dm.canvasRemove pv).strokeWidth, (dm.canvasRemove pv).opacity⟩
            hcR
          dsimp only at hcv2
          conv at hcv2 =>
            rhs
            rw [canvasRemove_baseLayer, canvasRemove_nextOid]
          refine ⟨_, hcv2, ?_⟩
          rcases hb : dm.baseLayer with _ | b
          · simp
          · dsimp only
            exact List.mem_cons_of_mem _
              ((List.mem_erase_of_ne (hbase2 b hb)).mpr
                (List.mem_append_right _ (List.mem_singleton.mpr rfl)))
        · have hg := addRectangleWithDimensions_heapGet
            ({ dm.canvasRemove pv with drawingPreviewObject := none })
            { c with objects := c.objects.erase pv,
                     activeObject := if c.activeObject == some pv then none
                                     else c.activeObject }
            ⟨min sp.x q.x, min sp.y q.y⟩ |q.x - sp.x| |q.y - sp.y|
            ⟨(dm.canvasRemove pv).fillColor, (dm.canvasRemove pv).strokeColor,
             (dm.canvasRemove pv).strokeWidth, (dm.canvasRemove pv).opacity⟩
            hcR hheapR
          dsimp only at hg
          show ((({ dm.canvasRemove pv with drawingPreviewObject := none }
            : DesignManager).addRectangleWithDimensions _ _ _ _).heapGet
              dm.nextOid).map _ = _
          rw [← canvasRemove_nextOid dm pv, hg]
          simp [mkShape, ScnObj.bounds]
      · intro hlt
        exact absurd hth hlt
    · split
      · -- circle tool
        rename_i htoolR0 htoolC
        have htool : dm.selectedTool = ToolType.circle := by
          rw [← canvasRemove_selectedTool dm pv]
          exact htoolC
        constructor
        · intro hge
          refine ⟨fun _ => ⟨?_, ?_, ?_⟩, fun hrect =>
            absurd (htool.symm.trans hrect) (by decide), fun _ => ?_⟩
          · show (({ dm.canvasRemove pv with drawingPreviewObject := none }
              : DesignManager).addCircleWithDimensions _ _ _).nextOid =
              dm.nextOid + 1
            rw [addCircleWithDimensions_nextOid _ _ _ _ (by rw [hcR]; rfl)]
            rw [show ({ dm.canvasRemove pv with
              drawingPreviewObject := none }
              : DesignManager).nextOid = (dm.canvasRemove pv).nextOid
              from rfl, canvasRemove_nextOid]
          · show (({ dm.canvasRemove pv with drawingPreviewObject := none }
              : DesignManager).addCircleWithDimensions
                _ _ _).layers.length = dm.layers.length + 1
            rw [addCircleWithDimensions_layers _ _ _ _ _ hcR]
            rw [show ({ dm.canvasRemove pv with
              drawingPreviewObject := none }
              : DesignManager).layers = (dm.canvasRemove pv).layers
              from rfl, canvasRemove_layers, List.length_append]
            rfl
          · have hcv2 := addCircleWithDimensions_canvas
              ({ dm.canvasRemove pv with drawingPreviewObject := none })
              { c with objects := c.objects.erase pv,
                       activeObject := if c.activeObject == some pv then none
                                       else c.activeObject }
              ⟨min sp.x q.x + |q.x - sp.x| / 2 -
                 min |q.x - sp.x| |q.y - sp.y| / 2,
               min sp.y q.y + |q.y - sp.y| / 2 -
                 min |q.x - sp.x| |q.y - sp.y| / 2⟩
              (min |q.x - sp.x| |q.y - sp.y| / 2)
              ⟨(dm.canvasRemove pv).fillColor,
               (dm.canvasRemove pv).strokeColor,
               (dm.canvasRemove pv).strokeWidth,
               (dm.canvasRemove pv).opacity⟩
              hcR
            dsimp only at hcv2
            conv at hcv2 =>
              rhs
              rw [canvasRemove_baseLayer, canvasRemove_nextOid]
            refine ⟨_, hcv2, ?_⟩
            rcases hb : dm.baseLayer with _ | b
            · simp
            · dsimp only
              exact List.mem_cons_of_mem _
                ((List.mem_erase_of_ne (hbase2 b hb)).mpr
                  (List.mem_append_right _ (List.mem_singleton.mpr rfl)))
          · have hg := addCircleWithDimensions_heapGet
              ({ dm.canvasRemove pv with drawingPreviewObject := none })
              { c with objects := c.objects.erase pv,
                       activeObject := if c.activeObject == some pv then none
                                       else c.activeObject }
              ⟨min sp.x q.x + |q.x - sp.x| / 2 -
                 min |q.x - sp.x| |q.y - sp.y| / 2,
               min sp.y q.y + |q.y - sp.y| / 2 -
                 min |q.x - sp.x| |q.y - sp.y| / 2⟩
              (min |q.x - sp.x| |q.y - sp.y| / 2)
              ⟨(dm.canvasRemove pv).fillColor,
               (dm.canvasRemove pv).strokeColor,
               (dm.canvasRemove pv).strokeWidth,
               (dm.canvasRemove pv).opacity⟩
              hcR hheapR
            dsimp only at hg
            show ((({ dm.canvasRemove pv with drawingPreviewObject := none }
              : DesignManager).addCircleWithDimensions _ _ _).heapGet
                dm.nextOid).map _ = _
            rw [← canvasRemove_nextOid dm pv, hg]
            simp [mkShape, ScnObj.bounds]
            ring
        · intro hlt
          exact absurd hth hlt
      · -- image or other tool: still no commit in this branch
        rename_i htoolR0 htoolC0
        have h1 : dm.selectedTool ≠ ToolType.rectangle := by
          intro h
          exact htoolR0 (by rw [canvasRemove_selectedTool]; exact h)
        have h2 : dm.selectedTool ≠ ToolType.circle := by
          intro h
          exact htoolC0 (by rw [canvasRemove_selectedTool]; exact h)
        constructor
        · intro hge
          exact ⟨fun hor => absurd hor (by
              rintro (h | h)
              · exact h1 h
              · exact h2 h),
            fun h => absurd h h1, fun h => absurd h h2⟩
        · intro hlt
          exact absurd hth hlt
  · -- sub-threshold drag
    rename_i hnth
    constructor
    · intro hge
      exact absurd hge hnth
    · intro _
      refine ⟨?_, ?_, ?_⟩
      · show (dm.canvasRemove pv).nextOid = dm.nextOid
        exact canvasRemove_nextOid dm pv
      · show (dm.canvasRemove pv).layers = dm.layers
        exact canvasRemove_layers dm pv
      · show (dm.canvasRemove pv).canvas = some _
        exact hrc

/-- Witness for C3 (amended): the demo rectangle-tool gesture finished
at `(20,15)` (a 20×15 box) commits exactly one rectangle with bounds
`(0,0,20,15)`. -/
theorem drag_create_committed_bounds_witness :
    (10 ≤ |(20 : ℚ) - 0| ∧ 10 ≤ |(15 : ℚ) - 0| →
      (demoRectDrag.selectedTool = ToolType.rectangle ∨
          demoRectDrag.selectedTool = ToolType.circle →
        (demoRectDrag.finishDrawing ⟨20, 15⟩).nextOid =
            demoRectDrag.nextOid + 1 ∧
          (demoRectDrag.finishDrawing ⟨20, 15⟩).layers.length =
            demoRectDrag.layers.length + 1 ∧
          ∃ c2, (demoRectDrag.finishDrawing ⟨20, 15⟩).canvas = some c2 ∧
            demoRectDrag.nextOid ∈ c2.objects) ∧
      (demoRectDrag.selectedTool = ToolType.rectangle →
        ((demoRectDrag.finishDrawing ⟨20, 15⟩).heapGet
            demoRectDrag.nextOid).map (fun o => (o.otype, o.bounds)) =
          some ("rect", (min (0 : ℚ) 20, min (0 : ℚ) 15, |(20 : ℚ) - 0|,
            |(15 : ℚ) - 0|))) ∧
      (demoRectDrag.selectedTool = ToolType.circle →
        ((demoRectDrag.finishDrawing ⟨20, 15⟩).heapGet
            demoRectDrag.nextOid).map (fun o => (o.otype, o.bounds)) =
          some ("circle",
            (min (0 : ℚ) 20 + |(20 : ℚ) - 0| / 2 -
               min |(20 : ℚ) - 0| |(15 : ℚ) - 0| / 2,
             min (0 : ℚ) 15 + |(15 : ℚ) - 0| / 2 -
               min |(20 : ℚ) - 0| |(15 : ℚ) - 0| / 2,
             min |(20 : ℚ) - 0| |(15 : ℚ) - 0|,
             min |(20 : ℚ) - 0| |(15 : ℚ) - 0|)))) ∧
    (¬(10 ≤ |(20 : ℚ) - 0| ∧ 10 ≤ |(15 : ℚ) - 0|) →
      (demoRectDrag.finishDrawing ⟨20, 15⟩).nextOid =
          demoRectDrag.nextOid ∧
        (demoRectDrag.finishDrawing ⟨20, 15⟩).layers =
          demoRectDrag.layers ∧
        (demoRectDrag.finishDrawing ⟨20, 15⟩).canvas = some
          { objects := [0, 2].erase 2,
            activeObject := if (none : Option ℕ) == some 2 then none
                            else (none : Option ℕ),
            backgroundColor := "#ffffff" }) :=
  drag_create_committed_bounds demoRectDrag ⟨[0, 2], none, "#ffffff"⟩
    ⟨0, 0⟩ ⟨20, 15⟩ 2 (by with_unfolding_all decide)
    (by with_unfolding_all decide) (by with_unfolding_all decide)
    (by with_unfolding_all decide) (by with_unfolding_all decide)
    (by with_unfolding_all decide)


theorem range_map_shift (n0 len : ℕ) :
    (List.range (len + 1)).map (n0 + ·) =
      n0 :: (List.range len).map ((n0 + 1) + ·) := by
  rw [List.range_succ_eq_map]
  simp only [List.map_cons, List.map_map]
  refine congrArg₂ _ (by simp) ?_
  apply List.map_congr_left
  intro i _
  simp only [Function.comp_apply]
  omega

theorem loadObjects_cons (dm : DesignManager) (o : ScnObj)
    (os : List ScnObj) :
    loadObjects dm (o :: os) = loadObjects (loadStep dm o) os := rfl

theorem loadStep_heap (dm : DesignManager) (o : ScnObj) :
    (loadStep dm o).heap = dm.heap ++ [(dm.nextOid, o)] := rfl

theorem loadStep_nextOid (dm : DesignManager) (o : ScnObj) :
    (loadStep dm o).nextOid = dm.nextOid + 1 := rfl

theorem loadStep_canvas (dm : DesignManager) (o : ScnObj) (c : Canvas)
    (hc : dm.canvas = some c) :
    (loadStep dm o).canvas =
      some { c with objects := c.objects ++ [dm.nextOid] } := by
  unfold loadStep
  dsimp only
  rw [show (dm.alloc o).1.canvas = dm.canvas from rfl, hc]
  rfl

theorem loadStep_fresh (dm : DesignManager) (o : ScnObj)
    (h : ∀ pr ∈ dm.heap, pr.1 < dm.nextOid) :
    ∀ pr ∈ (loadStep dm o).heap, pr.1 < (loadStep dm o).nextOid := by
  intro pr hpr
  rw [loadStep_heap] at hpr
  rw [loadStep_nextOid]
  rcases List.mem_append.mp hpr with h1 | h1
  · exact Nat.lt_succ_of_lt (h pr h1)
  · rw [List.mem_singleton.mp h1]
    exact Nat.lt_succ_self _

theorem loadObjects_heap_append (objs : List ScnObj) (dm : DesignManager) :
    ∃ t, (loadObjects dm objs).heap = dm.heap ++ t := by
  induction objs generalizing dm with
  | nil => exact ⟨[], by simp [loadObjects]⟩
  | cons o os ih =>
    rw [loadObjects_cons]
    obtain ⟨t, ht⟩ := ih (loadStep dm o)
    refine ⟨(dm.nextOid, o) :: t, ?_⟩
    rw [ht, loadStep_heap]
    simp

theorem loadObjects_canvas_spec (objs : List ScnObj) (dm : DesignManager)
    (c : Canvas) (hc : dm.canvas = some c) :
    (loadObjects dm objs).canvas = some
      { c with objects := c.objects ++
          (List.range objs.length).map (dm.nextOid + ·) } := by
  induction objs generalizing dm c with
  | nil =>
    simp only [List.length_nil, List.range_zero, List.map_nil,
      List.append_nil]
    exact hc
  | cons o os ih =>
    rw [loadObjects_cons,
      ih (loadStep dm o) _ (loadStep_canvas dm o c hc)]
    rw [loadStep_nextOid]
    rw [show (o :: os).length = os.length + 1 from rfl, range_map_shift]
    dsimp only
    rw [List.append_assoc]
    rfl

theorem loadObjects_nextOid (objs : List ScnObj) (dm : DesignManager) :
    (loadObjects dm objs).nextOid = dm.nextOid + objs.length := by
  induction objs generalizing dm with
  | nil => rfl
  | cons o os ih =>
    rw [loadObjects_cons, ih, loadStep_nextOid]
    rw [show (o :: os).length = os.length + 1 from rfl]
    omega

theorem loadObjects_fresh (objs : List ScnObj) (dm : DesignManager)
    (h : ∀ pr ∈ dm.heap, pr.1 < dm.nextOid) :
    ∀ pr ∈ (loadObjects dm objs).heap,
      pr.1 < (loadObjects dm objs).nextOid := by
  induction objs generalizing dm with
  | nil => exact h
  | cons o os ih =>
    rw [loadObjects_cons]
    exact ih (loadStep dm o) (loadStep_fresh dm o h)

theorem loadObjects_heapGet_new (objs : List ScnObj) (dm : DesignManager)
    (hfresh : ∀ pr ∈ dm.heap, pr.1 < dm.nextOid) :
    ∀ i (hi : i < objs.length),
      (loadObjects dm objs).heapGet (dm.nextOid + i) =
        some (objs.get ⟨i, hi⟩) := by
  induction objs generalizing dm with
  | nil =>
    intro i hi
    exact absurd hi (by simp)
  | cons o os ih =>
    intro i hi
    rw [loadObjects_cons]
    cases i with
    | zero =>
      obtain ⟨t, ht⟩ := loadObjects_heap_append os (loadStep dm o)
      unfold heapGet
      rw [ht, loadStep_heap, Nat.add_zero, List.append_assoc,
        List.find?_append]
      have h1 : dm.heap.find? (fun p => p.1 == dm.nextOid) = none := by
        rw [List.find?_eq_none]
        intro x hx
        simp [Nat.ne_of_lt (hfresh x hx)]
      rw [h1]
      simp
    | succ j =>
      have h2 : dm.nextOid + (j + 1) = (loadStep dm o).nextOid + j := by
        rw [loadStep_nextOid]
        omega
      rw [h2]
      exact ih (loadStep dm o) (loadStep_fresh dm o hfresh) j
        (by simpa using hi)


theorem find_cons_pos (p : ℕ × ScnObj → Bool) (a : ℕ × ScnObj)
    (t : List (ℕ × ScnObj)) (h : p a = true) :
    (a :: t).find? p = some a :=
  List.find?_cons_of_pos t h

theorem find_cons_neg (p : ℕ × ScnObj → Bool) (a : ℕ × ScnObj)
    (t : List (ℕ × ScnObj)) (h : p a = false) :
    (a :: t).find? p = t.find? p :=
  List.find?_cons_of_neg t (by simp [h])

theorem find_keyUpdate_ne (h : List (ℕ × ScnObj)) (b k : ℕ) (o2 : ScnObj)
    (hne : k ≠ b) :
    (h.map (fun p => if p.1 == b then (b, o2) else p)).find?
        (fun p => p.1 == k) =
      h.find? (fun p => p.1 == k) := by
  induction h with
  | nil => rfl
  | cons a t ih =>
    simp only [List.map_cons]
    by_cases hab : a.1 = b
    · rw [if_pos (by simp [hab])]
      rw [find_cons_neg (fun p => p.1 == k) (b, o2) _ (by simp [Ne.symm hne]),
        find_cons_neg (fun p => p.1 == k) a _ (by simp [hab, Ne.symm hne])]
      exact ih
    · rw [if_neg (by simp [hab])]
      cases hk : (a.1 == k) with
      | true =>
        rw [find_cons_pos (fun p => p.1 == k) a _ hk,
          find_cons_pos (fun p => p.1 == k) a _ hk]
      | false =>
        rw [find_cons_neg (fun p => p.1 == k) a _ hk,
          find_cons_neg (fun p => p.1 == k) a _ hk]
        exact ih

theorem find_keyUpdate_self (h : List (ℕ × ScnObj)) (b : ℕ) (o2 : ScnObj)
    (pr : ℕ × ScnObj) (hf : h.find? (fun p => p.1 == b) = some pr) :
    (h.map (fun p => if p.1 == b then (b, o2) else p)).find?
        (fun p => p.1 == b) = some (b, o2) := by
  induction h with
  | nil => simp at hf
  | cons a t ih =>
    simp only [List.map_cons]
    by_cases hab : a.1 = b
    · rw [if_pos (by simp [hab])]
      exact find_cons_pos (fun p => p.1 == b) (b, o2) _ (by simp)
    · rw [if_neg (by simp [hab])]
      rw [find_cons_neg (fun p => p.1 == b) a _ (by simp [hab])] at hf
      rw [find_cons_neg (fun p => p.1 == b) a _ (by simp [hab])]
      exact ih hf

theorem rebindState_heapGet (dm : DesignManager) (ld : List LayerMeta)
    (k : ℕ) (o : ScnObj) (hg : dm.heapGet k = some o) :
    ∃ o2, (rebindState dm ld).heapGet k = some o2 ∧
      o2.otype = o.otype ∧
      ((o2.otype == "baselayer") = false → o2 = o) := by
  unfold rebindState
  split
  · exact ⟨o, hg, rfl, fun _ => rfl⟩
  · rename_i c hc
    dsimp only
    split
    · rename_i boid heqb
      split
      · rename_i ob hob
        by_cases hkb : k = boid
        · subst hkb
          have hob2 : dm.heapGet k = some ob := hob
          rw [hg] at hob2
          have hoo : o = ob := (Option.some.injEq _ _).mp hob2
          subst hoo
          have hpred := List.find?_some heqb
          have hbl0 : ((dm.heapGet k).map
              (fun x => x.otype == "baselayer")).getD false = true := hpred
          rw [hg] at hbl0
          have hbl : (o.otype == "baselayer") = true := by
            simpa using hbl0
          refine ⟨{ o with selectable := false, evented := false }, ?_,
            rfl, ?_⟩
          · unfold heapGet heapSet
            dsimp only
            obtain ⟨pr, hpr, -⟩ := Option.map_eq_some'.mp
              (show ((dm.heap.find? (fun p => p.1 == k)).map
                (fun p => p.2)) = some o from hg)
            rw [find_keyUpdate_self dm.heap k
              { o with selectable := false, evented := false } pr hpr]
            rfl
          · intro hfalse
            have hfo : (o.otype == "baselayer") = false := hfalse
            rw [hbl] at hfo
            cases hfo
        · refine ⟨o, ?_, rfl, fun _ => rfl⟩
          unfold heapGet heapSet
          dsimp only
          rw [find_keyUpdate_ne dm.heap boid k
            { ob with selectable := false, evented := false } hkb]
          exact hg
      · exact ⟨o, hg, rfl, fun _ => rfl⟩
    · exact ⟨o, hg, rfl, fun _ => rfl⟩


theorem rebuild_fold (D : DesignManager) (objs : List ScnObj) :
    ∀ (n0 u0 : ℕ) (acc : List CanvasLayer),
      (∀ i (hi : i < objs.length), ∃ o2,
          D.heapGet (n0 + i) = some o2 ∧
          o2.otype = (objs.get ⟨i, hi⟩).otype ∧
          ((o2.otype == "baselayer") = false → o2 = objs.get ⟨i, hi⟩)) →
      ((List.range objs.length).map (n0 + ·)).foldl
          (fun (acc : List CanvasLayer × ℕ) (oid : ℕ) =>
            match D.heapGet oid with
            | none => acc
            | some o =>
              if o.otype == "baselayer" then acc else
              let nm := o.name.getD (o.text.getD o.otype)
              match o.layerId with
              | some lid =>
                (acc.1 ++ [⟨lid, nm, oid, o.visible, !o.selectable⟩], acc.2)
              | none =>
                (acc.1 ++ [⟨acc.2, nm, oid, o.visible, !o.selectable⟩],
                 acc.2 + 1))
          (acc, u0) =
        (acc ++ (rebuildRegistrySpec objs n0 u0).1,
         (rebuildRegistrySpec objs n0 u0).2) := by
  induction objs with
  | nil =>
    intro n0 u0 acc H
    simp [rebuildRegistrySpec]
  | cons o os ih =>
    intro n0 u0 acc H
    obtain ⟨o2, hg, hot, himp⟩ := H 0 (by simp)
    rw [Nat.add_zero] at hg
    have hget0 : (o :: os).get ⟨0, by simp⟩ = o := rfl
    rw [hget0] at hot himp
    have Hs : ∀ i (hi : i < os.length), ∃ o3,
        D.heapGet ((n0 + 1) + i) = some o3 ∧
        o3.otype = (os.get ⟨i, hi⟩).otype ∧
        ((o3.otype == "baselayer") = false → o3 = os.get ⟨i, hi⟩) := by
      intro i hi
      obtain ⟨o3, h1, h2, h3⟩ := H (i + 1) (by simpa using hi)
      rw [show n0 + (i + 1) = (n0 + 1) + i from by omega] at h1
      exact ⟨o3, h1, h2, h3⟩
    rw [show (o :: os).length = os.length + 1 from rfl, range_map_shift,
      List.foldl_cons]
    dsimp only
    rw [hg]
    dsimp only
    by_cases hb2 : (o2.otype == "baselayer") = true
    · rw [if_pos hb2]
      have hbo : (o.otype == "baselayer") = true := by
        rw [← hot]
        exact hb2
      have hspec : rebuildRegistrySpec (o :: os) n0 u0 =
          rebuildRegistrySpec os (n0 + 1) u0 := by
        simp only [rebuildRegistrySpec]
        rw [if_pos hbo]
      rw [hspec]
      exact ih (n0 + 1) u0 acc Hs
    · have hb2f : (o2.otype == "baselayer") = false :=
        Bool.not_eq_true _ ▸ hb2
      rw [if_neg hb2]
      have ho2 : o = o2 := (himp hb2f).symm
      subst ho2
      have hbo : (o.otype == "baselayer") = false := hb2f
      rcases hl : o.layerId with _ | lid
      · dsimp only
        rw [ih (n0 + 1) (u0 + 1) _ Hs]
        have hspec : rebuildRegistrySpec (o :: os) n0 u0 =
            ((⟨u0, o.name.getD (o.text.getD o.otype), n0, o.visible,
               !o.selectable⟩ : CanvasLayer) ::
               (rebuildRegistrySpec os (n0 + 1) (u0 + 1)).1,
             (rebuildRegistrySpec os (n0 + 1) (u0 + 1)).2) := by
          simp only [rebuildRegistrySpec]
          rw [if_neg (by simp [hbo]), hl]
        rw [hspec]
        simp
      · dsimp only
        rw [ih (n0 + 1) u0 _ Hs]
        have hspec : rebuildRegistrySpec (o :: os) n0 u0 =
            ((⟨lid, o.name.getD (o.text.getD o.otype), n0, o.visible,
               !o.selectable⟩ : CanvasLayer) ::
               (rebuildRegistrySpec os (n0 + 1) u0).1,
             (rebuildRegistrySpec os (n0 + 1) u0).2) := by
          simp only [rebuildRegistrySpec]
          rw [if_neg (by simp [hbo]), hl]
        rw [hspec]
        simp


/-- **C1 counterexample.** On the three-shape demo document `undo` does
not leave the registry the specification predicts: `rebindState` does
match serialized ids against the reloaded tags, but `undo` then
overwrites the registry from the reloaded objects, so the serialized
name `"Rectangle"` is replaced by the object type `"rect"` and the
unmatched circle is kept under a fresh id instead of being dropped; and
after undo followed by redo on the duplicated-rectangle document the
duplicate does not recover its pre-undo id `1` — both registry entries
end up with the original's tag `0`. -/
theorem undo_registry_counterexample :
    (demoThree.historyStack.get? 2).map
        (fun s => specRebuiltRegistry s.layers s.canvas) =
      some [(0, "Rectangle")] ∧
    demoThree.undo.layers.map (fun l => (l.id, l.name)) =
      [(0, "rect"), (3, "circle")] ∧
    demoThree.undo.layers.map (fun l => (l.id, l.name)) ≠
      [(0, "Rectangle")] ∧
    demoDup.layers.map (fun l => l.id) = [0, 1] ∧
    demoDup.undo.redo.layers.map (fun l => l.id) = [0, 0] := by
  with_unfolding_all decide

/-- **C1 amended.** For every `undo` from a live canvas with a snapshot
below the pointer, the resulting layer registry is not the serialized
registry filtered by tag-matching: it is rebuilt from the reloaded
objects themselves — one entry per non-`BaseLayer` object in paint
order, keyed by the embedded `layerId` tag when present and otherwise
by a fresh uuid, named `obj.name ?? obj.text ?? obj.type` (the
serialized layer names, and the matched/dropped distinction that
`rebindState` computes, are discarded by the final overwrite). -/
theorem undo_rebuilds_registry_from_objects (dm : DesignManager)
    (c : Canvas) (prev : Snapshot)
    (hc : dm.canvas = some c)
    (hu : dm.canUndo = true)
    (hs : dm.historyStack.get? (dm.historyPointer - 1).toNat = some prev)
    (hheap : ∀ pr ∈ dm.heap, pr.1 < dm.nextOid) :
    (dm.undo).layers =
        (rebuildRegistrySpec prev.canvas dm.nextOid dm.nextUuid).1 ∧
      (dm.undo).nextUuid =
        (rebuildRegistrySpec prev.canvas dm.nextOid dm.nextUuid).2 := by
  unfold undo
  rw [hu]
  rw [if_neg (by simp)]
  dsimp only
  rw [hc, hs]
  dsimp only
  have hcv2 : (clearCanvasObjects { dm with canvas := some c, isRestoringState := true, historyPointer := dm.historyPointer - 1 }).canvas =
      some { c with objects := [], activeObject := none } := by
    unfold clearCanvasObjects
    dsimp only
    rfl
  have hfresh2 : ∀ pr ∈ (clearCanvasObjects { dm with canvas := some c, isRestoringState := true, historyPointer := dm.historyPointer - 1 }).heap,
      pr.1 < (clearCanvasObjects { dm with canvas := some c, isRestoringState := true, historyPointer := dm.historyPointer - 1 }).nextOid :=
    fun pr hpr => hheap pr hpr
  have hcv3 := loadObjects_canvas_spec prev.canvas _ _ hcv2
  rw [show (clearCanvasObjects { dm with canvas := some c, isRestoringState := true, historyPointer := dm.historyPointer - 1 }).nextOid = dm.nextOid from rfl] at hcv3
  dsimp only at hcv3
  simp only [List.nil_append] at hcv3
  have hcv4 : (rebindState (loadObjects (clearCanvasObjects { dm with canvas := some c, isRestoringState := true, historyPointer := dm.historyPointer - 1 }) prev.canvas)
      prev.layers).canvas =
      some { c with
        objects := (List.range prev.canvas.length).map (dm.nextOid + ·),
        activeObject := none } := by
    rw [(rebindState_components _ _).2.2.2.2]
    exact hcv3
  have hu4 : (rebindState (loadObjects (clearCanvasObjects { dm with canvas := some c, isRestoringState := true, historyPointer := dm.historyPointer - 1 }) prev.canvas)
      prev.layers).nextUuid = dm.nextUuid := by
    rw [(rebindState_components _ _).2.2.2.1, loadObjects_nextUuid]
    rfl
  have H : ∀ i (hi : i < prev.canvas.length), ∃ o2,
      (rebindState (loadObjects (clearCanvasObjects { dm with canvas := some c, isRestoringState := true, historyPointer := dm.historyPointer - 1 }) prev.canvas)
        prev.layers).heapGet (dm.nextOid + i) = some o2 ∧
      o2.otype = (prev.canvas.get ⟨i, hi⟩).otype ∧
      ((o2.otype == "baselayer") = false →
        o2 = prev.canvas.get ⟨i, hi⟩) := by
    intro i hi
    have h1 := loadObjects_heapGet_new prev.canvas
      (clearCanvasObjects { dm with canvas := some c, isRestoringState := true, historyPointer := dm.historyPointer - 1 }) hfresh2 i hi
    rw [show (clearCanvasObjects { dm with canvas := some c, isRestoringState := true, historyPointer := dm.historyPointer - 1 }).nextOid = dm.nextOid
      from rfl] at h1
    exact rebindState_heapGet _ prev.layers _ _ h1
  unfold rebuildLayersFromObjects
  rw [hcv4]
  dsimp only
  rw [hu4]
  rw [rebuild_fold _ prev.canvas dm.nextOid dm.nextUuid [] H]
  dsimp only
  exact ⟨by simp, rfl⟩

set_option maxRecDepth 8192 in
/-- Witness for C1 (amended): undoing the rectangle-plus-circle demo
reloads the pre-circle snapshot (base layer and one untagged rectangle)
and rebuilds the registry from those objects. -/
theorem undo_rebuilds_registry_witness :
    demoTwo.undo.layers =
        (rebuildRegistrySpec
          (⟨[{ mkShape "baselayer" ⟨0, 0⟩ 800 600 0 "#ffffff" "#000000" 1 1
                with selectable := false, evented := false },
              mkShape "rect" ⟨50, 50⟩ 100 80 0 "#ff0000" "#000000" 1 1],
            []⟩ : Snapshot).canvas demoTwo.nextOid demoTwo.nextUuid).1 ∧
      demoTwo.undo.nextUuid =
        (rebuildRegistrySpec
          (⟨[{ mkShape "baselayer" ⟨0, 0⟩ 800 600 0 "#ffffff" "#000000" 1 1
                with selectable := false, evented := false },
              mkShape "rect" ⟨50, 50⟩ 100 80 0 "#ff0000" "#000000" 1 1],
            []⟩ : Snapshot).canvas demoTwo.nextOid demoTwo.nextUuid).2 :=
  undo_rebuilds_registry_from_objects demoTwo ⟨[0, 1, 2], some 2, "#ffffff"⟩
    ⟨[{ mkShape "baselayer" ⟨0, 0⟩ 800 600 0 "#ffffff" "#000000" 1 1
         with selectable := false, evented := false },
       mkShape "rect" ⟨50, 50⟩ 100 80 0 "#ff0000" "#000000" 1 1], []⟩
    (by with_unfolding_all decide) (by with_unfolding_all decide)
    (by with_unfolding_all decide) (by with_unfolding_all decide)

end DesignManager

end Rupix
